import Mathlib

/-!
Tanky: terrain, projectile and turn logic of `src/main.cpp`.

A shallow embedding of the simulation core of the game (heightmap generation,
crater carving, projectile step, turn and score handling) together with the
properties of it that the specification states.

Modelling conventions.

* C++ `float` values are exact rationals (`ℚ`); the conversion `float → int`
  truncates toward zero (`truncToInt`).  The arithmetic of the embedding is
  exact: the rounding of each `float` operation to binary32, NaN and
  infinities are not represented in it; an assignment such as
  `position.x += velocity.x` is read as the exact sum.  Where a property is
  sensitive to that rounding this is said at the property: the crater depth
  and the velocity of a shot are given exactly only for inputs on which the
  arithmetic of the program is exact and within a bound otherwise, the
  self-hit is given with a margin far above the rounding error, and the
  rounded step that decides the overlap test at the thresholds of the self-hit
  is written out with `f32`.
* C++ `int` values are integers (`ℤ`); all quantities of the game stay far
  below `2^31`, no wrap-around is modelled.
* `int terrain[TERRAIN_WIDTH]` is a `List ℤ`; the theorems assume its length is
  `TERRAIN_WIDTH`.  Reads are `List.getD _ _ 0`, writes are `List.set`.
* Library calls whose result is a `float` that is used as such (`sqrt` in
  `Projectile::Shoot`, `atan2`, the constant `PI`) are parameters
  (`FloatOps`).  In `HandleTerrainImpact` the square root is converted to `int`
  at once, and is modelled by the truncated exact square root (`sqrtToInt`,
  justified by `sqrtToInt_eq_floor_sqrt`).
* Polled input (`IsKeyDown`, `IsKeyPressed`, `IsMouseButtonPressed`,
  `GetMousePosition`) is a per-frame record `Input`; rendering calls are
  dropped, only the state changes of `Game::Draw` are kept.
-/

namespace Tanky

/-! ## Constants -/

def SCREEN_WIDTH : Int := 1920

def SCREEN_HEIGHT : Int := 1200

def TERRAIN_SEGMENT_WIDTH : Int := 5

def TERRAIN_WIDTH : Int := SCREEN_WIDTH / TERRAIN_SEGMENT_WIDTH

def MAX_HEIGHT : Int := 500

def HEIGHT_DIFF : Int := 4

/-! ## Numeric helpers -/

/-- Conversion `float → int` of C++: truncation toward zero. -/
def truncToInt (q : ℚ) : Int := if 0 ≤ q then ⌊q⌋ else ⌈q⌉

/-- The statement `int n = sqrt(v);`: the square root of `v`, truncated. -/
def sqrtToInt (v : ℚ) : Int := (Nat.sqrt ⌊v⌋.toNat : Nat)

/-- Rounding to the nearest integer, ties to the even one. -/
def roundHalfEven (q : ℚ) : Int :=
  if q - (⌊q⌋ : ℚ) < 1 / 2 then ⌊q⌋
  else if 1 / 2 < q - (⌊q⌋ : ℚ) then ⌊q⌋ + 1
  else if ⌊q⌋ % 2 = 0 then ⌊q⌋ else ⌊q⌋ + 1

/-- The binary32 value a `float` holds when the exact result `q` of an
arithmetic operation is stored in it: `q` rounded to the nearest multiple of
`2 ^ (e - 23)`, ties to even, where `2 ^ e ≤ |q| < 2 ^ (e + 1)` and `e` is not
taken below `-126` (subnormal range).  Overflow to infinity
(`|q| ≥ 2 ^ 128`) is not represented. -/
def f32 (q : ℚ) : ℚ :=
  let e : Int := max (Int.log 2 |q|) (-126)
  (roundHalfEven (q / (2 : ℚ) ^ (e - 23)) : ℚ) * (2 : ℚ) ^ (e - 23)

/-- Float library functions whose results the program uses as floats. -/
structure FloatOps where
  sqrt : ℚ → ℚ
  atan2 : ℚ → ℚ → ℚ
  PI : ℚ

def RemapValue (value inputMin inputMax outputMin outputMax : ℚ) : ℚ :=
  outputMin + (outputMax - outputMin) * ((value - inputMin) / (inputMax - inputMin))

/-! ## Data model -/

structure Vector2 where
  x : ℚ
  y : ℚ
deriving DecidableEq

structure Rectangle where
  x : ℚ
  y : ℚ
  width : ℚ
  height : ℚ
deriving DecidableEq

/-- Modelled from the spec: raylib's `CheckCollisionRecs` is a library function
outside the repository; the spec calls it an "axis-aligned rectangle overlap
test".  Overlap is strict, as in raylib. -/
def CheckCollisionRecs (rec1 rec2 : Rectangle) : Bool :=
  decide ((rec1.x < rec2.x + rec2.width ∧ rec1.x + rec1.width > rec2.x) ∧
    (rec1.y < rec2.y + rec2.height ∧ rec1.y + rec1.height > rec2.y))

structure Scoreboard where
  player1Score : Int
  player2Score : Int
deriving DecidableEq

def Scoreboard.init : Scoreboard := ⟨0, 0⟩

def Scoreboard.AddScore (s : Scoreboard) (player points : Int) : Scoreboard :=
  if player = 1 then { s with player1Score := s.player1Score + points }
  else if player = 2 then { s with player2Score := s.player2Score + points }
  else s

def Scoreboard.Reset (_s : Scoreboard) : Scoreboard := ⟨0, 0⟩

/-- Class `Tank` with the members it inherits from `Entity`. -/
structure Tank where
  position : Vector2
  rotation : ℚ
  width : Int
  height : Int
  speed : ℚ
  accumulatedMovement : ℚ
  gravity : ℚ
  verticalVelocity : ℚ
  health : Int
  movementDistance : ℚ
  currentMovement : ℚ
  direction : Int
deriving DecidableEq

/-- Constructor `Tank::Tank(tankSpeed, startPosition, _)`. -/
def Tank.init (tankSpeed : ℚ) (startPosition : Vector2) : Tank :=
  { position := startPosition, rotation := 0, width := 50, height := 30,
    speed := tankSpeed, accumulatedMovement := 0, gravity := 3 / 10,
    verticalVelocity := 0, health := 100, movementDistance := 500,
    currentMovement := 0, direction := 0 }

def Tank.SetPosition (t : Tank) (newPosition : Vector2) : Tank :=
  { t with position := newPosition }

def Tank.ApplyGravity (t : Tank) (terrain : List Int) : Tank :=
  let verticalVelocity := t.verticalVelocity + t.gravity
  let y := t.position.y + verticalVelocity
  let terrainIndex : Int := truncToInt (t.position.x / TERRAIN_SEGMENT_WIDTH)
  if 0 ≤ terrainIndex ∧ terrainIndex < TERRAIN_WIDTH then
    let terrainHeight : ℚ :=
      ((SCREEN_HEIGHT - terrain.getD terrainIndex.toNat 0 - t.height : Int) : ℚ)
    if y > terrainHeight then
      { t with position := ⟨t.position.x, terrainHeight⟩, verticalVelocity := 0 }
    else
      { t with position := ⟨t.position.x, y⟩, verticalVelocity := verticalVelocity }
  else
    { t with position := ⟨t.position.x, y⟩, verticalVelocity := verticalVelocity }

def Tank.HandleInput (ops : FloatOps) (t : Tank) (terrain : List Int) (keyA keyD : Bool) :
    Tank :=
  let previousPositionX := t.position.x
  let moved : ℚ × Int :=
    if keyA = true ∧ t.currentMovement < t.movementDistance then
      (t.position.x - t.speed, -1)
    else if keyD = true ∧ t.currentMovement < t.movementDistance then
      (t.position.x + t.speed, 1)
    else (t.position.x, 0)
  let x1 : ℚ := if moved.1 < 0 then 0 else moved.1
  let x2 : ℚ :=
    if x1 > ((SCREEN_WIDTH - t.width : Int) : ℚ) then ((SCREEN_WIDTH - t.width : Int) : ℚ)
    else x1
  let accumulatedMovement := t.accumulatedMovement + |x2 - previousPositionX|
  let currentMovement := t.currentMovement + |x2 - previousPositionX|
  let terrainIndex : Int := truncToInt (x2 / TERRAIN_SEGMENT_WIDTH)
  let moved2 : Tank :=
    { t with position := ⟨x2, t.position.y⟩, direction := moved.2,
             currentMovement := currentMovement,
             accumulatedMovement := accumulatedMovement }
  if accumulatedMovement ≥ 5 then
    if 0 ≤ terrainIndex ∧ terrainIndex < TERRAIN_WIDTH - 1 then
      let heightDifference : ℚ :=
        ((terrain.getD (terrainIndex + 1).toNat 0 - terrain.getD terrainIndex.toNat 0 : Int) : ℚ)
      let distance : ℚ := (TERRAIN_SEGMENT_WIDTH : ℚ)
      { moved2 with rotation := ops.atan2 heightDifference distance * (180 / ops.PI),
                    accumulatedMovement := 0 }
    else { moved2 with accumulatedMovement := 0 }
  else moved2

def Tank.TakeDamage (t : Tank) (damage : Int) : Tank :=
  let health := t.health - damage
  { t with health := if health < 0 then 0 else health }

def Tank.ResetMovement (t : Tank) : Tank :=
  { t with currentMovement := 0 }

/-- Class `Projectile` with the members it inherits from `Entity`. -/
structure Projectile where
  position : Vector2
  rotation : ℚ
  width : Int
  height : Int
  velocity : Vector2
  gravity : ℚ
  isActive : Bool
deriving DecidableEq

/-- Constructor `Projectile::Projectile()`; `velocity` is left uninitialised by
the program, its indeterminate value is the argument. -/
def Projectile.init (velocity : Vector2) : Projectile :=
  { position := ⟨0, 0⟩, rotation := 0, width := 10, height := 10,
    velocity := velocity, gravity := 0, isActive := false }

/-- `Projectile::Shoot`, in exact arithmetic.  The program rounds the two
products, their sum, the two quotients and the two final products to binary32.
When `distance` is 0 (`targetPos = startPos`) the program divides 0 by 0 and
stores NaN in both velocity components; here a quotient by 0 is 0, so
statements about the velocity of a shot are made for `targetPos ≠ startPos`
only. -/
def Projectile.Shoot (ops : FloatOps) (p : Projectile) (startPos targetPos : Vector2)
    (initialVelocity grav : ℚ) : Projectile :=
  let direction : Vector2 := ⟨targetPos.x - startPos.x, targetPos.y - startPos.y⟩
  let distance : ℚ := ops.sqrt (direction.x * direction.x + direction.y * direction.y)
  { p with position := startPos,
           velocity := ⟨(direction.x / distance) * initialVelocity,
                        (direction.y / distance) * initialVelocity⟩,
           gravity := grav,
           isActive := true }

/-! ## Terrain -/

/-- The local `impactIndex` of `Game::HandleTerrainImpact`. -/
def impactIndex (impactPos : Vector2) : Int :=
  truncToInt (impactPos.x / TERRAIN_SEGMENT_WIDTH)

/-- The local `impactRadius` of `Game::HandleTerrainImpact`. -/
def impactRadius (radius : ℚ) : Int :=
  truncToInt (radius / TERRAIN_SEGMENT_WIDTH)

/-- The local `distanceToImpact` of `Game::HandleTerrainImpact` for segment `i`:
`fabs(i * TERRAIN_SEGMENT_WIDTH - impactPos.x)`. -/
def distanceToImpact (impactPos : Vector2) (i : Int) : ℚ :=
  |((i * TERRAIN_SEGMENT_WIDTH : Int) : ℚ) - impactPos.x|

/-- The local `craterDepth` of `Game::HandleTerrainImpact` for segment `i`, in
exact arithmetic.  The program rounds `distanceToImpact`, the two products and
their difference to binary32 before the root is taken, so for an impact x that
is not an integer its depth can differ from this one (impact x = 14 + 2^-20,
radius 50, segment 0: 48 in binary32, 47 here).  For an integer impact x and
an integer radius up to 1000 every intermediate value is an integer below
2^24, the program computes it exactly and its depth is this one. -/
def craterDepth (impactPos : Vector2) (radius : ℚ) (i : Int) : Int :=
  sqrtToInt (radius * radius - distanceToImpact impactPos i * distanceToImpact impactPos i)

/-- Body of the loop of `Game::HandleTerrainImpact` for loop variable `i`. -/
def craterStep (impactPos : Vector2) (radius : ℚ) (i : Int) (terrain : List Int) : List Int :=
  if 0 ≤ i ∧ i < TERRAIN_WIDTH then
    if distanceToImpact impactPos i < radius then
      let h : Int := terrain.getD i.toNat 0 - craterDepth impactPos radius i
      terrain.set i.toNat (if h < 0 then 0 else h)
    else terrain
  else terrain

/-- The first `n` iterations of `for (int i = lo; ...; i++)` of
`Game::HandleTerrainImpact`: `i = lo, lo + 1, ..., lo + n - 1` in this order. -/
def craterLoop (impactPos : Vector2) (radius : ℚ) (lo : Int) : Nat → List Int → List Int
  | 0, terrain => terrain
  | n + 1, terrain =>
    craterStep impactPos radius (lo + n) (craterLoop impactPos radius lo n terrain)

/-- `Game::HandleTerrainImpact`: the loop runs from `impactIndex - impactRadius`
to `impactIndex + impactRadius` inclusive, that is `2 * impactRadius + 1` times
(not at all when that number is negative). -/
def HandleTerrainImpact (terrain : List Int) (impactPos : Vector2) (radius : ℚ) : List Int :=
  craterLoop impactPos radius (impactIndex impactPos - impactRadius radius)
    (2 * impactRadius radius + 1).toNat terrain

/-- Segment `i` lies in the index window of the loop of
`Game::HandleTerrainImpact`. -/
def inWindow (impactPos : Vector2) (radius : ℚ) (i : Int) : Prop :=
  impactIndex impactPos - impactRadius radius ≤ i ∧
    i ≤ impactIndex impactPos + impactRadius radius

instance (impactPos : Vector2) (radius : ℚ) (i : Int) : Decidable (inWindow impactPos radius i) :=
  inferInstanceAs (Decidable (_ ∧ _))

/-- Body of the loop of `Game::Terrain` for loop variable `i`; `rnd k` is the
value returned by the `k`-th call of `rand()` after `srand` (counting from 0),
a non-negative `int`. -/
def terrainStep (rnd : Nat → Nat) (i : Nat) (terrain : List Int) : List Int :=
  let prevHeight : Int := terrain.getD (i - 1) 0
  let change : Int := ((rnd i : Int) % (2 * HEIGHT_DIFF + 1)) - HEIGHT_DIFF
  let h0 : Int := prevHeight + change
  let h1 : Int := if h0 < 0 then 0 else h0
  let h2 : Int := if h1 ≥ MAX_HEIGHT then MAX_HEIGHT - 1 else h1
  terrain.set i h2

/-- The iterations `i = 1, ..., n` of the loop of `Game::Terrain`. -/
def terrainLoop (rnd : Nat → Nat) : Nat → List Int → List Int
  | 0, terrain => terrain
  | n + 1, terrain => terrainStep rnd (n + 1) (terrainLoop rnd n terrain)

/-- `Game::Terrain`, writing into the array `terrain`. -/
def Terrain (rnd : Nat → Nat) (terrain : List Int) : List Int :=
  terrainLoop rnd (TERRAIN_WIDTH - 1).toNat (terrain.set 0 ((rnd 0 : Int) % MAX_HEIGHT))

/-! ## Projectile step -/

/-- What `Projectile::Update` leaves behind: the projectile, the terrain array
and the two tanks it received by reference. -/
structure ProjectileStep where
  projectile : Projectile
  terrain : List Int
  player1 : Tank
  player2 : Tank

/-- The integration at the head of `Projectile::Update`:
`velocity.y += gravity; position.x += velocity.x; position.y += velocity.y;`,
in exact arithmetic.  The program rounds each of the three sums to binary32
(`Projectile.integrateF32`); while the coordinates stay below 2048 in
absolute value, one step of the two differs by at most 2^-13 in each
coordinate. -/
def Projectile.integrate (p : Projectile) : Projectile :=
  let velocity : Vector2 := ⟨p.velocity.x, p.velocity.y + p.gravity⟩
  { p with velocity := velocity,
           position := ⟨p.position.x + velocity.x, p.position.y + velocity.y⟩ }

/-- The same three statements with each sum rounded to binary32, as the
program stores it. -/
def Projectile.integrateF32 (p : Projectile) : Projectile :=
  let velocity : Vector2 := ⟨p.velocity.x, f32 (p.velocity.y + p.gravity)⟩
  { p with velocity := velocity,
           position := ⟨f32 (p.position.x + velocity.x), f32 (p.position.y + velocity.y)⟩ }

/-- The terrain test of `Projectile::Update` at `position`:
`terrainIndex >= 0 && terrainIndex < TERRAIN_WIDTH &&
position.y >= SCREEN_HEIGHT - terrain[terrainIndex]`. -/
def hitsTerrain (position : Vector2) (terrain : List Int) : Bool :=
  let terrainIndex : Int := truncToInt (position.x / TERRAIN_SEGMENT_WIDTH)
  decide (0 ≤ terrainIndex ∧ terrainIndex < TERRAIN_WIDTH ∧
    position.y ≥ ((SCREEN_HEIGHT - terrain.getD terrainIndex.toNat 0 : Int) : ℚ))

/-- The rectangle `projectileRect` of `Projectile::Update`. -/
def Projectile.rect (p : Projectile) : Rectangle :=
  ⟨p.position.x - ((p.width / 2 : Int) : ℚ), p.position.y - ((p.height / 2 : Int) : ℚ),
    (p.width : ℚ), (p.height : ℚ)⟩

/-- The rectangles `player1Rect`, `player2Rect` of `Projectile::Update`. -/
def Tank.rect (t : Tank) : Rectangle :=
  ⟨t.position.x, t.position.y, (t.width : ℚ), (t.height : ℚ)⟩

def Projectile.Update (p : Projectile) (terrain : List Int) (player1 player2 : Tank)
    (HandleTerrainImpact : List Int → Vector2 → ℚ → List Int) : ProjectileStep :=
  if p.isActive = true then
    let q : Projectile := p.integrate
    let hitTerrain : Bool := hitsTerrain q.position terrain
    let isActive1 : Bool := if hitTerrain then false else true
    let terrain1 : List Int :=
      if hitTerrain then HandleTerrainImpact terrain q.position 50 else terrain
    let isActive2 : Bool :=
      if q.position.x < 0 ∨ q.position.x > (SCREEN_WIDTH : ℚ) then false else isActive1
    let hit1 : Bool := CheckCollisionRecs q.rect player1.rect
    let hit2 : Bool := CheckCollisionRecs q.rect player2.rect
    let isActive3 : Bool := if hit1 then false else isActive2
    let isActive4 : Bool := if hit2 then false else isActive3
    { projectile := { q with isActive := isActive4 },
      terrain := terrain1,
      player1 := if hit1 then player1.TakeDamage 20 else player1,
      player2 := if hit2 then player2.TakeDamage 20 else player2 }
  else
    { projectile := p, terrain := terrain, player1 := player1, player2 := player2 }

/-! ## Game -/

inductive GameState where
  | MAIN_MENU
  | GAME_PLAY
  | GAME_OVER
deriving DecidableEq

/-- Class `Game` (textures dropped) together with the global `currentState`. -/
structure Game where
  player1 : Tank
  player2 : Tank
  currentProjectile : Projectile
  isPlayer1Turn : Bool
  projectileActive : Bool
  terrain : List Int
  scoreboard : Scoreboard
  currentState : GameState

/-- The input polled during one frame. -/
structure Input where
  keyEnter : Bool
  keyA : Bool
  keyD : Bool
  mouseLeft : Bool
  mousePos : Vector2
  keyR : Bool
  keyM : Bool

/-- Constructor `Game::Game()` at program start (`currentState = MAIN_MENU`);
`terrain0` and `velocity0` are the indeterminate initial contents of the
terrain array and of the projectile's velocity. -/
def Game.init (rnd : Nat → Nat) (terrain0 : List Int) (velocity0 : Vector2) : Game :=
  { player1 := Tank.init 5 ⟨100, 800⟩,
    player2 := Tank.init 5 ⟨1700, 800⟩,
    currentProjectile := Projectile.init velocity0,
    isPlayer1Turn := true,
    projectileActive := false,
    terrain := Terrain rnd terrain0,
    scoreboard := Scoreboard.init,
    currentState := GameState.MAIN_MENU }

/-- `Game::HandlePlayerShooting(player)`; `player` is the tank passed by
reference, of which only the position is read. -/
def Game.HandlePlayerShooting (ops : FloatOps) (g : Game) (player : Tank) (inp : Input) : Game :=
  if g.projectileActive = false ∧ inp.mouseLeft = true then
    let mousePos := inp.mousePos
    let playerPos := player.position
    let distance : ℚ :=
      ops.sqrt ((mousePos.x - playerPos.x) ^ 2 + (mousePos.y - playerPos.y) ^ 2)
    let power : ℚ := RemapValue distance 0 500 1 10
    { g with currentProjectile := g.currentProjectile.Shoot ops playerPos mousePos power (3 / 10),
             projectileActive := true }
  else g

/-- The `GAME_PLAY` branch of `Game::Update` up to and including
`currentProjectile.Update(...)`, before the test for a resolved shot. -/
def Game.playStep (ops : FloatOps) (g : Game) (inp : Input) : Game :=
  let g1 : Game :=
    { g with player1 := g.player1.ApplyGravity g.terrain,
             player2 := g.player2.ApplyGravity g.terrain }
  let g2 : Game :=
    if g1.projectileActive = false then
      if g1.isPlayer1Turn = true then
        let moved := g1.player1.HandleInput ops g1.terrain inp.keyA inp.keyD
        Game.HandlePlayerShooting ops { g1 with player1 := moved } moved inp
      else
        let moved := g1.player2.HandleInput ops g1.terrain inp.keyA inp.keyD
        Game.HandlePlayerShooting ops { g1 with player2 := moved } moved inp
    else g1
  let r := g2.currentProjectile.Update g2.terrain g2.player1 g2.player2 HandleTerrainImpact
  { g2 with currentProjectile := r.projectile, terrain := r.terrain,
            player1 := r.player1, player2 := r.player2 }

/-- The last statement of the `GAME_PLAY` branch of `Game::Update`:
`if (projectileActive && !currentProjectile.IsActive()) ...`. -/
def Game.resolveShot (g : Game) : Game :=
  if g.projectileActive = true ∧ g.currentProjectile.isActive = false then
    let g1 : Game := { g with projectileActive := false }
    if g1.player1.health ≤ 0 then
      { g1 with scoreboard := g1.scoreboard.AddScore 2 10, currentState := GameState.GAME_OVER }
    else if g1.player2.health ≤ 0 then
      { g1 with scoreboard := g1.scoreboard.AddScore 1 10, currentState := GameState.GAME_OVER }
    else
      { g1 with isPlayer1Turn := !g1.isPlayer1Turn,
                player1 := g1.player1.ResetMovement,
                player2 := g1.player2.ResetMovement }
  else g

def Game.Update (ops : FloatOps) (g : Game) (inp : Input) : Game :=
  match g.currentState with
  | GameState.MAIN_MENU =>
    if inp.keyEnter = true then { g with currentState := GameState.GAME_PLAY } else g
  | GameState.GAME_PLAY => Game.resolveShot (Game.playStep ops g inp)
  | GameState.GAME_OVER => g

/-- The state changes of `Game::Draw` (the restart and menu keys of the
game-over screen); drawing itself is not modelled. -/
def Game.Draw (g : Game) (inp : Input) : Game :=
  match g.currentState with
  | GameState.GAME_OVER =>
    let g1 : Game :=
      if inp.keyR = true then
        { g with player1 := (g.player1.SetPosition ⟨100, 800⟩).TakeDamage (-100),
                 player2 := (g.player2.SetPosition ⟨1700, 800⟩).TakeDamage (-100),
                 scoreboard := g.scoreboard.Reset,
                 isPlayer1Turn := true,
                 projectileActive := false,
                 currentState := GameState.GAME_PLAY }
      else g
    if inp.keyM = true then { g1 with currentState := GameState.MAIN_MENU } else g1
  | _ => g

/-- One iteration of the main loop: `game.Update(); game.Draw();`. -/
def Game.frame (ops : FloatOps) (g : Game) (inp : Input) : Game :=
  Game.Draw (Game.Update ops g inp) inp

/-- The game states the program can be in at the start of a frame. -/
inductive Reachable (ops : FloatOps) : Game → Prop where
  | init (rnd : Nat → Nat) (terrain0 : List Int) (velocity0 : Vector2)
      (h : terrain0.length = TERRAIN_WIDTH.toNat) :
      Reachable ops (Game.init rnd terrain0 velocity0)
  | step (g : Game) (inp : Input) (h : Reachable ops g) :
      Reachable ops (Game.frame ops g inp)

/-! ## Example data -/

/-- A float library for the examples: `sqrt` is exact on perfect squares. -/
def exampleOps : FloatOps :=
  { sqrt := fun v => ((sqrtToInt v : Int) : ℚ), atan2 := fun _ _ => 0, PI := 355 / 113 }

/-- A frame in which no key and no mouse button is pressed. -/
def noInput : Input :=
  { keyEnter := false, keyA := false, keyD := false, mouseLeft := false,
    mousePos := ⟨0, 0⟩, keyR := false, keyM := false }

/-- A frame in which only `R` is pressed. -/
def pressR : Input := { noInput with keyR := true }

/-- A flat terrain of height `h`. -/
def flatTerrain (h : Int) : List Int := List.replicate 384 h

/-- A tank of health `health` standing at `x` on `flatTerrain h`. -/
def standingTank (x : ℚ) (h health : Int) : Tank :=
  { Tank.init 5 ⟨x, ((SCREEN_HEIGHT - h - 30 : Int) : ℚ)⟩ with health := health }

/-- A projectile in flight one unit right of the left screen edge, below the
surface level of `flatTerrain 100`, moving left. -/
def edgeShot : Projectile :=
  { position := ⟨1, 1150⟩, rotation := 0, width := 10, height := 10,
    velocity := ⟨-3, 0⟩, gravity := 3 / 10, isActive := true }

/-- A projectile in flight. -/
def flyingShot (position velocity : Vector2) : Projectile :=
  { position := position, rotation := 0, width := 10, height := 10,
    velocity := velocity, gravity := 3 / 10, isActive := true }

/-- Both tanks side by side on `flatTerrain 470` with 20 health each, and a
shot in flight that is about to enter both boxes. -/
def duelGame : Game :=
  { player1 := standingTank 500 470 20,
    player2 := standingTank 520 470 20,
    currentProjectile := flyingShot ⟨530, 690⟩ ⟨0, 10⟩,
    isPlayer1Turn := true,
    projectileActive := true,
    terrain := flatTerrain 470,
    scoreboard := ⟨0, 0⟩,
    currentState := GameState.GAME_PLAY }

/-- The game-over screen after player 1 has destroyed player 2's tank without
being hit. -/
def wonGame : Game :=
  { player1 := standingTank 100 100 100,
    player2 := standingTank 1700 100 0,
    currentProjectile := { flyingShot ⟨1710, 1080⟩ ⟨3, 4⟩ with isActive := false },
    isPlayer1Turn := true,
    projectileActive := false,
    terrain := flatTerrain 100,
    scoreboard := ⟨10, 0⟩,
    currentState := GameState.GAME_OVER }

/-- Both tanks at their start columns on `flatTerrain 100`, unhurt, and a
shot in flight that is about to leave the screen on the right. -/
def missGame : Game :=
  { player1 := standingTank 100 100 100,
    player2 := standingTank 1700 100 100,
    currentProjectile := flyingShot ⟨1919, 100⟩ ⟨5, 0⟩,
    isPlayer1Turn := true,
    projectileActive := true,
    terrain := flatTerrain 100,
    scoreboard := ⟨0, 0⟩,
    currentState := GameState.GAME_PLAY }

/-- A frame in which only `Enter` is pressed. -/
def pressEnter : Input := { noInput with keyEnter := true }

/-- The tank whose turn it is, after `ApplyGravity` and `HandleInput` of the
frame. -/
def movedTank (ops : FloatOps) (g : Game) (inp : Input) : Tank :=
  if g.isPlayer1Turn = true then
    (g.player1.ApplyGravity g.terrain).HandleInput ops g.terrain inp.keyA inp.keyD
  else
    (g.player2.ApplyGravity g.terrain).HandleInput ops g.terrain inp.keyA inp.keyD

/-- The projectile as `HandlePlayerShooting` leaves it when it fires. -/
def shotFired (ops : FloatOps) (g : Game) (inp : Input) : Projectile :=
  g.currentProjectile.Shoot ops (movedTank ops g inp).position inp.mousePos
    (RemapValue (ops.sqrt ((inp.mousePos.x - (movedTank ops g inp).position.x) ^ 2 +
      (inp.mousePos.y - (movedTank ops g inp).position.y) ^ 2)) 0 500 1 10) (3 / 10)

/-- A frame in which the player whose turn it is clicks 3 units right of and 4
units below the position of the own tank, no key pressed. -/
def selfHitInput (g : Game) : Input :=
  { noInput with
    mouseLeft := true,
    mousePos := ⟨(movedTank exampleOps g noInput).position.x + 3,
                 (movedTank exampleOps g noInput).position.y + 4⟩ }

/-- The tanks stand in their start columns with healths `h1`, `h2`; tanks and
projectile have the sizes their constructors give them. -/
def Placed (g : Game) (h1 h2 : Int) : Prop :=
  g.player1.health = h1 ∧ g.player2.health = h2 ∧
  g.player1.position.x = 100 ∧ g.player2.position.x = 1700 ∧
  g.player1.width = 50 ∧ g.player1.height = 30 ∧
  g.player2.width = 50 ∧ g.player2.height = 30 ∧
  g.currentProjectile.width = 10 ∧ g.currentProjectile.height = 10

/-- A match in progress with no shot in flight. -/
def Ready (g : Game) (turn : Bool) (h1 h2 : Int) : Prop :=
  g.currentState = GameState.GAME_PLAY ∧ g.projectileActive = false ∧
  g.isPlayer1Turn = turn ∧ Placed g h1 h2

/-- The program started with a random source that always returns 7: `Enter`
on the menu, then `n` frames in each of which the player to move fires at the
own tank. -/
def selfHitTrace : Nat → Game
  | 0 => Game.frame exampleOps (Game.init (fun _ => 7) (List.replicate 384 0) ⟨0, 0⟩) pressEnter
  | n + 1 => Game.frame exampleOps (selfHitTrace n) (selfHitInput (selfHitTrace n))

/-- The state after `R` is pressed on the game-over screen that ends
`selfHitTrace 9`. -/
def restartedGame : Game := Game.frame exampleOps (selfHitTrace 9) pressR

/-- The argument of `sqrt` in `Projectile::Shoot`: the squared distance from
`startPos` to `targetPos`. -/
def distanceSq (startPos targetPos : Vector2) : ℚ :=
  (targetPos.x - startPos.x) * (targetPos.x - startPos.x) +
    (targetPos.y - startPos.y) * (targetPos.y - startPos.y)

/-- A frame in which only `D` is held. -/
def holdD : Input := { noInput with keyD := true }

/-- The program started with a random source that always returns 7: `Enter`
on the menu, then `n` frames in each of which `D` is held. -/
def moveTrace : Nat → Game
  | 0 => selfHitTrace 0
  | n + 1 => Game.frame exampleOps (moveTrace n) holdD

/-- A tank standing at (260, 1103). -/
def thresholdTank : Tank := standingTank 260 67 100

/-- The projectile as the program's `Shoot` leaves it when the tank at
(260, 1103) fires at a click on (32, 990): the velocity components are the
binary32 values -4.9999938 and -2.4780672 that the program computes, the
gravity is the binary32 value of `0.3f`. -/
def thresholdShot : Projectile :=
  { position := ⟨260, 1103⟩, rotation := 0, width := 10, height := 10,
    velocity := ⟨-10485747 / 2097152, -10393767 / 4194304⟩,
    gravity := 5033165 / 16777216, isActive := true }

/-- The x-coordinate `Tank::HandleInput` leaves the tank at. -/
def Tank.nextX (t : Tank) (keyA keyD : Bool) : ℚ :=
  let x0 : ℚ :=
    if keyA = true ∧ t.currentMovement < t.movementDistance then t.position.x - t.speed
    else if keyD = true ∧ t.currentMovement < t.movementDistance then t.position.x + t.speed
    else t.position.x
  let x1 : ℚ := if x0 < 0 then 0 else x0
  if x1 > ((SCREEN_WIDTH - t.width : Int) : ℚ) then ((SCREEN_WIDTH - t.width : Int) : ℚ) else x1

/-- The invariant behind the movement budget: the tank has the size, speed
and budget its constructor gives it, its x is a multiple of 5 in `[0, 1870]`
and its `currentMovement` a multiple of 5 in `[0, 500]`. -/
def Budgeted (t : Tank) : Prop :=
  t.width = 50 ∧ t.height = 30 ∧ t.speed = 5 ∧ t.movementDistance = 500 ∧
  (∃ k : Int, t.position.x = 5 * (k : ℚ) ∧ 0 ≤ k ∧ k ≤ 374) ∧
  (∃ m : Int, t.currentMovement = 5 * (m : ℚ) ∧ 0 ≤ m ∧ m ≤ 100)

/-- The operations on a tank that occur in a frame preserve `P`. -/
def TankClosed (ops : FloatOps) (P : Tank → Prop) : Prop :=
  (∀ (t : Tank) (terrain : List Int), P t → P (t.ApplyGravity terrain)) ∧
  (∀ (t : Tank) (terrain : List Int) (keyA keyD : Bool),
    P t → P (t.HandleInput ops terrain keyA keyD)) ∧
  (∀ (t : Tank) (damage : Int), P t → P (t.TakeDamage damage)) ∧
  (∀ t : Tank, P t → P t.ResetMovement) ∧
  (∀ t : Tank, P t → P (t.SetPosition ⟨100, 800⟩) ∧ P (t.SetPosition ⟨1700, 800⟩))

/-- The game's flag and the projectile's flag agree, and no shot is pending
outside `GAME_PLAY`. -/
def Synced (g : Game) : Prop :=
  g.projectileActive = g.currentProjectile.isActive ∧
  (g.currentState ≠ GameState.GAME_PLAY → g.projectileActive = false)

/-! ## Crater carving -/

theorem sqrtToInt_nonneg (v : ℚ) : 0 ≤ sqrtToInt v := by
  unfold sqrtToInt
  exact Int.natCast_nonneg _

theorem craterDepth_nonneg (p : Vector2) (R : ℚ) (i : Int) : 0 ≤ craterDepth p R i :=
  sqrtToInt_nonneg _

theorem craterStep_length (p : Vector2) (R : ℚ) (i : Int) (t : List Int) :
    (craterStep p R i t).length = t.length := by
  unfold craterStep
  split_ifs <;> simp

theorem craterLoop_length (p : Vector2) (R : ℚ) (lo : Int) (n : Nat) (t : List Int) :
    (craterLoop p R lo n t).length = t.length := by
  induction n with
  | zero => rfl
  | succ n ih => simp [craterLoop, craterStep_length, ih]

theorem HandleTerrainImpact_length (t : List Int) (p : Vector2) (R : ℚ) :
    (HandleTerrainImpact t p R).length = t.length :=
  craterLoop_length _ _ _ _ _

/-- A write `terrain[j] = max(0, terrain[j] - depth)` read back at `j`, also
when `j` is past the end of the list (both sides are then the default 0). -/
theorem getD_set_carve (t : List Int) (j : Nat) (depth : Int) (hd : 0 ≤ depth) :
    (t.set j (if t.getD j 0 - depth < 0 then 0 else t.getD j 0 - depth)).getD j 0 =
      max 0 (t.getD j 0 - depth) := by
  by_cases hj : j < t.length
  · rw [List.getD_eq_getElem?_getD, List.getElem?_set]
    simp only [hj, if_true, Option.getD_some]
    split_ifs with h
    · rw [max_eq_left (le_of_lt h)]
    · rw [max_eq_right (not_lt.mp h)]
  · have h0 : t.getD j 0 = 0 := by
      rw [List.getD_eq_getElem?_getD, List.getElem?_eq_none (not_lt.mp hj)]
      rfl
    rw [List.getD_eq_getElem?_getD, List.getElem?_set]
    simp only [hj, if_false, if_true]
    rw [h0]
    simp [hd]

theorem getD_set_ne (t : List Int) (i j : Nat) (v : Int) (h : i ≠ j) :
    (t.set i v).getD j 0 = t.getD j 0 := by
  rw [List.getD_eq_getElem?_getD, List.getD_eq_getElem?_getD, List.getElem?_set_ne h]

/-- Effect of one loop iteration of `HandleTerrainImpact` on segment `j`. -/
theorem craterStep_getD (p : Vector2) (R : ℚ) (i : Int) (t : List Int) (j : Nat) :
    (craterStep p R i t).getD j 0 =
      if i = (j : Int) ∧ (j : Int) < TERRAIN_WIDTH ∧ distanceToImpact p j < R then
        max 0 (t.getD j 0 - craterDepth p R j)
      else t.getD j 0 := by
  unfold craterStep
  by_cases hij : i = (j : Int)
  · subst hij
    have h0 : (0 : Int) ≤ (j : Int) := Int.natCast_nonneg j
    simp only [h0, true_and, Int.toNat_ofNat]
    by_cases hw : (j : Int) < TERRAIN_WIDTH
    · by_cases hd : distanceToImpact p j < R
      · simp only [hw, hd, if_true, and_self]
        exact getD_set_carve t j _ (craterDepth_nonneg p R j)
      · simp [hw, hd]
    · simp [hw]
  · have hne : ¬ (i = (j : Int) ∧ (j : Int) < TERRAIN_WIDTH ∧ distanceToImpact p j < R) :=
      fun h => hij h.1
    rw [if_neg hne]
    split_ifs with h1 h2
    · apply getD_set_ne
      intro h
      apply hij
      rw [← h, Int.toNat_of_nonneg h1.1]
    · rfl
    · rfl

/-- Effect of the first `n` loop iterations of `HandleTerrainImpact`. -/
theorem craterLoop_getD (p : Vector2) (R : ℚ) (lo : Int) (n : Nat) (t : List Int) (j : Nat) :
    (craterLoop p R lo n t).getD j 0 =
      if (lo ≤ (j : Int) ∧ (j : Int) < lo + n) ∧ (j : Int) < TERRAIN_WIDTH ∧
          distanceToImpact p j < R then
        max 0 (t.getD j 0 - craterDepth p R j)
      else t.getD j 0 := by
  induction n with
  | zero =>
    have h0 : ¬ (lo ≤ (j : Int) ∧ (j : Int) < lo + ((0 : Nat) : Int)) := by
      push_cast
      omega
    rw [if_neg (fun h => h0 h.1)]
    rfl
  | succ n ih =>
    simp only [craterLoop]
    rw [craterStep_getD]
    by_cases hj : lo + (n : Int) = (j : Int)
    · have h1 : ¬ (lo ≤ (j : Int) ∧ (j : Int) < lo + (n : Int)) := by omega
      have h2 : lo ≤ (j : Int) ∧ (j : Int) < lo + ((n + 1 : Nat) : Int) := by
        push_cast
        omega
      have ih0 : (craterLoop p R lo n t).getD j 0 = t.getD j 0 := by
        rw [ih, if_neg (fun h => h1 h.1)]
      rw [ih0]
      by_cases hA : (j : Int) < TERRAIN_WIDTH ∧ distanceToImpact p j < R
      · rw [if_pos ⟨hj, hA⟩, if_pos ⟨h2, hA⟩]
      · rw [if_neg (fun h => hA h.2), if_neg (fun h => hA h.2)]
    · have h3 : (lo ≤ (j : Int) ∧ (j : Int) < lo + ((n + 1 : Nat) : Int)) ↔
          (lo ≤ (j : Int) ∧ (j : Int) < lo + (n : Int)) := by
        push_cast
        omega
      rw [if_neg (fun h => hj h.1), ih]
      simp only [h3]

/-- What `HandleTerrainImpact` leaves in segment `j`: carved when `j` is in the
loop window, inside the array and closer than `radius`; untouched otherwise. -/
theorem HandleTerrainImpact_getD (t : List Int) (p : Vector2) (R : ℚ) (j : Nat) :
    (HandleTerrainImpact t p R).getD j 0 =
      if inWindow p R j ∧ (j : Int) < TERRAIN_WIDTH ∧ distanceToImpact p j < R then
        max 0 (t.getD j 0 - craterDepth p R j)
      else t.getD j 0 := by
  unfold HandleTerrainImpact
  rw [craterLoop_getD]
  have hw : (impactIndex p - impactRadius R ≤ (j : Int) ∧
      (j : Int) < impactIndex p - impactRadius R + ((2 * impactRadius R + 1).toNat : Int)) ↔
      inWindow p R j := by
    unfold inWindow
    omega
  simp only [hw]

theorem truncToInt_intCast (z : Int) : truncToInt (z : ℚ) = z := by
  unfold truncToInt
  split_ifs <;> simp

theorem impactRadius_multiple (k : Nat) :
    impactRadius ((k : ℚ) * (TERRAIN_SEGMENT_WIDTH : ℚ)) = k := by
  unfold impactRadius TERRAIN_SEGMENT_WIDTH
  have : ((k : ℚ) * ((5 : Int) : ℚ)) / ((5 : Int) : ℚ) = ((k : Int) : ℚ) := by
    push_cast
    field_simp
  rw [this, truncToInt_intCast]

theorem distanceToImpact_nonneg (p : Vector2) (i : Int) : 0 ≤ distanceToImpact p i :=
  abs_nonneg _

/-- Reading a flat terrain. -/
theorem getD_replicate_lt (n j : Nat) (v : Int) (h : j < n) :
    (List.replicate n v).getD j 0 = v := by
  rw [List.getD_eq_getElem?_getD, List.getElem?_replicate, if_pos h]
  rfl

theorem impactIndex_960 (y : ℚ) : impactIndex ⟨960, y⟩ = 192 := by
  unfold impactIndex TERRAIN_SEGMENT_WIDTH
  have : ((960 : ℚ) / ((5 : Int) : ℚ)) = ((192 : Int) : ℚ) := by norm_num
  simp only [this, truncToInt_intCast]

theorem impactRadius_50 : impactRadius 50 = 10 := by
  have h := impactRadius_multiple 10
  have e : ((10 : Nat) : ℚ) * (TERRAIN_SEGMENT_WIDTH : ℚ) = 50 := by
    unfold TERRAIN_SEGMENT_WIDTH
    norm_num
  rw [e] at h
  exact_mod_cast h

theorem terrainWidth_eq : TERRAIN_WIDTH = 384 := by decide

theorem flat_range (k : Nat) (hk : (k : Int) < TERRAIN_WIDTH) :
    0 ≤ (List.replicate 384 (100 : Int)).getD k 0 ∧
      (List.replicate 384 (100 : Int)).getD k 0 < MAX_HEIGHT := by
  rw [terrainWidth_eq] at hk
  rw [getD_replicate_lt 384 k 100 (by omega)]
  unfold MAX_HEIGHT
  omega

/-- C3: `HandleTerrainImpact` changes segment `i` only if `i` lies in the window
`[impactIndex - impactRadius, impactIndex + impactRadius]` and its distance
`|i*5 - impactX|` is less than the radius; every other segment is unchanged,
and the array keeps its length.  In the spec's example (impact at x = 960,
radius 50) `impactIndex` is 192, `impactRadius` is 10, and no segment with
index outside `[182, 202]` changes. -/
theorem C3_crater_frame (terrain : List Int) (impactPos : Vector2) (radius y : ℚ) (i : Nat) :
    (¬ (inWindow impactPos radius i ∧ distanceToImpact impactPos i < radius) →
      (HandleTerrainImpact terrain impactPos radius).getD i 0 = terrain.getD i 0) ∧
    (HandleTerrainImpact terrain impactPos radius).length = terrain.length ∧
    impactIndex ⟨960, y⟩ = 192 ∧ impactRadius 50 = 10 ∧
    ((i < 182 ∨ 202 < i) →
      (HandleTerrainImpact terrain ⟨960, y⟩ 50).getD i 0 = terrain.getD i 0) := by
  refine ⟨?_, HandleTerrainImpact_length _ _ _, impactIndex_960 y, impactRadius_50, ?_⟩
  · intro h
    rw [HandleTerrainImpact_getD, if_neg (fun hc => h ⟨hc.1, hc.2.2⟩)]
  · intro h
    rw [HandleTerrainImpact_getD, if_neg]
    rintro ⟨hw, -, -⟩
    unfold inWindow at hw
    rw [impactIndex_960, impactRadius_50] at hw
    omega

/-- Witness for C3: segment 203 of a flat terrain, impact at x = 960 with
radius 50. -/
theorem C3_crater_frame_witness :
    ¬ (inWindow ⟨960, 0⟩ 50 ((203 : Nat) : Int) ∧
        distanceToImpact ⟨960, 0⟩ ((203 : Nat) : Int) < 50) ∧
    (HandleTerrainImpact (List.replicate 384 100) ⟨960, 0⟩ 50).getD 203 0 =
      (List.replicate 384 (100 : Int)).getD 203 0 :=
  have h : ¬ (inWindow ⟨960, 0⟩ 50 ((203 : Nat) : Int) ∧
      distanceToImpact ⟨960, 0⟩ ((203 : Nat) : Int) < 50) := by
    rintro ⟨hw, -⟩
    unfold inWindow at hw
    rw [impactIndex_960, impactRadius_50] at hw
    omega
  ⟨h, (C3_crater_frame (List.replicate 384 100) ⟨960, 0⟩ 50 0 203).1 h⟩

/-- C4: for every terrain whose heights are all in `[0, MAX_HEIGHT)`, every
impact position and every radius, after `HandleTerrainImpact` every segment `i`
satisfies `0 ≤ new height ≤ old height`, so it is again in `[0, MAX_HEIGHT)`. -/
theorem C4_crater_never_raises (terrain : List Int) (impactPos : Vector2) (radius : ℚ)
    (hrange : ∀ k : Nat, (k : Int) < TERRAIN_WIDTH →
      0 ≤ terrain.getD k 0 ∧ terrain.getD k 0 < MAX_HEIGHT)
    (i : Nat) (hi : (i : Int) < TERRAIN_WIDTH) :
    0 ≤ (HandleTerrainImpact terrain impactPos radius).getD i 0 ∧
    (HandleTerrainImpact terrain impactPos radius).getD i 0 ≤ terrain.getD i 0 ∧
    (HandleTerrainImpact terrain impactPos radius).getD i 0 < MAX_HEIGHT := by
  have h0 := hrange i hi
  have hdep := craterDepth_nonneg impactPos radius i
  have key : 0 ≤ (HandleTerrainImpact terrain impactPos radius).getD i 0 ∧
      (HandleTerrainImpact terrain impactPos radius).getD i 0 ≤ terrain.getD i 0 := by
    rw [HandleTerrainImpact_getD]
    split_ifs with h
    · exact ⟨le_max_left _ _, max_le h0.1 (by omega)⟩
    · exact ⟨h0.1, le_refl _⟩
  exact ⟨key.1, key.2, lt_of_le_of_lt key.2 h0.2⟩

/-- Witness for C4: a flat terrain of height 100 hit at x = 960 with radius
50, read at the centre of the crater. -/
theorem C4_crater_never_raises_witness :
    0 ≤ (HandleTerrainImpact (List.replicate 384 100) ⟨960, 0⟩ 50).getD 192 0 ∧
    (HandleTerrainImpact (List.replicate 384 100) ⟨960, 0⟩ 50).getD 192 0 ≤
      (List.replicate 384 (100 : Int)).getD 192 0 ∧
    (HandleTerrainImpact (List.replicate 384 100) ⟨960, 0⟩ 50).getD 192 0 < MAX_HEIGHT :=
  C4_crater_never_raises (List.replicate 384 100) ⟨960, 0⟩ 50 flat_range 192
    (by rw [terrainWidth_eq]; norm_num)

/-! ## Heightmap generation -/

theorem getD_set_self (t : List Int) (i : Nat) (v : Int) (h : i < t.length) :
    (t.set i v).getD i 0 = v := by
  rw [List.getD_eq_getElem?_getD, List.getElem?_set]
  simp [h]

theorem terrainStep_length (rnd : Nat → Nat) (i : Nat) (t : List Int) :
    (terrainStep rnd i t).length = t.length := by
  simp [terrainStep]

theorem terrainLoop_length (rnd : Nat → Nat) (n : Nat) (t : List Int) :
    (terrainLoop rnd n t).length = t.length := by
  induction n with
  | zero => rfl
  | succ n ih => simp [terrainLoop, terrainStep_length, ih]

/-- A loop iteration of `Game::Terrain` leaves the earlier segments alone. -/
theorem terrainStep_getD_lt (rnd : Nat → Nat) (i j : Nat) (t : List Int) (h : j < i) :
    (terrainStep rnd i t).getD j 0 = t.getD j 0 := by
  unfold terrainStep
  exact getD_set_ne t i j _ (by omega)

/-- The height written by a loop iteration of `Game::Terrain` is in range and
within `HEIGHT_DIFF` of its left neighbour, provided that neighbour is in
range. -/
theorem terrainStep_getD_self (rnd : Nat → Nat) (n : Nat) (t : List Int)
    (hlen : n + 1 < t.length) (hprev : 0 ≤ t.getD n 0 ∧ t.getD n 0 < MAX_HEIGHT) :
    (0 ≤ (terrainStep rnd (n + 1) t).getD (n + 1) 0 ∧
      (terrainStep rnd (n + 1) t).getD (n + 1) 0 < MAX_HEIGHT) ∧
    |(terrainStep rnd (n + 1) t).getD (n + 1) 0 - t.getD n 0| ≤ HEIGHT_DIFF := by
  unfold terrainStep
  rw [getD_set_self _ _ _ hlen]
  unfold MAX_HEIGHT HEIGHT_DIFF at *
  simp only [Nat.add_sub_cancel]
  have hm1 : 0 ≤ (rnd (n + 1) : Int) % (2 * 4 + 1) := Int.emod_nonneg _ (by norm_num)
  have hm2 : (rnd (n + 1) : Int) % (2 * 4 + 1) < 2 * 4 + 1 := Int.emod_lt_of_pos _ (by norm_num)
  obtain ⟨hp1, hp2⟩ := hprev
  rw [abs_le]
  split_ifs <;> omega

/-- Loop invariant of `Game::Terrain` after the iterations `1, ..., n`. -/
theorem terrainLoop_inv (rnd : Nat → Nat) (t : List Int) (n : Nat) (hn : n < t.length)
    (h0 : 0 ≤ t.getD 0 0 ∧ t.getD 0 0 < MAX_HEIGHT) :
    (∀ i : Nat, i ≤ n → 0 ≤ (terrainLoop rnd n t).getD i 0 ∧
      (terrainLoop rnd n t).getD i 0 < MAX_HEIGHT) ∧
    (∀ i : Nat, 0 < i → i ≤ n →
      |(terrainLoop rnd n t).getD i 0 - (terrainLoop rnd n t).getD (i - 1) 0| ≤ HEIGHT_DIFF) := by
  induction n with
  | zero =>
    constructor
    · intro i hi
      have : i = 0 := by omega
      subst this
      exact h0
    · intro i hi1 hi2
      omega
  | succ n ih =>
    obtain ⟨ih1, ih2⟩ := ih (by omega)
    have hlen : n + 1 < (terrainLoop rnd n t).length := by
      rw [terrainLoop_length]
      exact hn
    have hs := terrainStep_getD_self rnd n (terrainLoop rnd n t) hlen (ih1 n (le_refl n))
    simp only [terrainLoop]
    constructor
    · intro i hi
      rcases Nat.lt_or_ge i (n + 1) with h | h
      · rw [terrainStep_getD_lt rnd (n + 1) i _ h]
        exact ih1 i (by omega)
      · have : i = n + 1 := by omega
        subst this
        exact hs.1
    · intro i hi1 hi2
      rcases Nat.lt_or_ge i (n + 1) with h | h
      · rw [terrainStep_getD_lt rnd (n + 1) i _ h,
          terrainStep_getD_lt rnd (n + 1) (i - 1) _ (by omega)]
        exact ih2 i hi1 (by omega)
      · have : i = n + 1 := by omega
        subst this
        rw [Nat.add_sub_cancel, terrainStep_getD_lt rnd (n + 1) n _ (by omega)]
        exact hs.2

/-- C5: for every sequence of values returned by the random source (and
whatever the array held before), `Game::Terrain` fills the array so that every
height is in `[0, MAX_HEIGHT) = [0, 500)` and consecutive heights differ by at
most `HEIGHT_DIFF = 4`; the array keeps its `TERRAIN_WIDTH` entries. -/
theorem C5_terrain_heightmap (rnd : Nat → Nat) (terrain0 : List Int)
    (hlen : (terrain0.length : Int) = TERRAIN_WIDTH) :
    ((Terrain rnd terrain0).length : Int) = TERRAIN_WIDTH ∧
    (∀ i : Nat, (i : Int) < TERRAIN_WIDTH →
      0 ≤ (Terrain rnd terrain0).getD i 0 ∧ (Terrain rnd terrain0).getD i 0 < MAX_HEIGHT) ∧
    (∀ i : Nat, 0 < i → (i : Int) < TERRAIN_WIDTH →
      |(Terrain rnd terrain0).getD i 0 - (Terrain rnd terrain0).getD (i - 1) 0| ≤
        HEIGHT_DIFF) := by
  rw [terrainWidth_eq] at hlen ⊢
  have hl : terrain0.length = 384 := by omega
  have hw : (TERRAIN_WIDTH - 1).toNat = 383 := by
    rw [terrainWidth_eq]
    rfl
  unfold Terrain
  rw [hw]
  have hl1 : (terrain0.set 0 ((rnd 0 : Int) % MAX_HEIGHT)).length = 384 := by
    rw [List.length_set, hl]
  have h0 : 0 ≤ (terrain0.set 0 ((rnd 0 : Int) % MAX_HEIGHT)).getD 0 0 ∧
      (terrain0.set 0 ((rnd 0 : Int) % MAX_HEIGHT)).getD 0 0 < MAX_HEIGHT := by
    rw [getD_set_self _ _ _ (by omega)]
    unfold MAX_HEIGHT
    exact ⟨Int.emod_nonneg _ (by norm_num), Int.emod_lt_of_pos _ (by norm_num)⟩
  obtain ⟨h1, h2⟩ := terrainLoop_inv rnd _ 383 (by omega) h0
  refine ⟨?_, ?_, ?_⟩
  · rw [terrainLoop_length, hl1]
    rfl
  · intro i hi
    exact h1 i (by omega)
  · intro i hi1 hi2
    exact h2 i hi1 (by omega)

/-- Witness for C5: the random source that always returns 7, writing into an
array of 384 zeros. -/
theorem C5_terrain_heightmap_witness :
    ((Terrain (fun _ => 7) (List.replicate 384 0)).length : Int) = TERRAIN_WIDTH ∧
    (∀ i : Nat, (i : Int) < TERRAIN_WIDTH →
      0 ≤ (Terrain (fun _ => 7) (List.replicate 384 0)).getD i 0 ∧
        (Terrain (fun _ => 7) (List.replicate 384 0)).getD i 0 < MAX_HEIGHT) ∧
    (∀ i : Nat, 0 < i → (i : Int) < TERRAIN_WIDTH →
      |(Terrain (fun _ => 7) (List.replicate 384 0)).getD i 0 -
        (Terrain (fun _ => 7) (List.replicate 384 0)).getD (i - 1) 0| ≤ HEIGHT_DIFF) :=
  C5_terrain_heightmap (fun _ => 7) (List.replicate 384 0)
    (by rw [List.length_replicate, terrainWidth_eq]; rfl)

/-! ## Projectile step -/

theorem truncToInt_eq (q : ℚ) (z : Int) (h0 : 0 ≤ q) (h1 : (z : ℚ) ≤ q) (h2 : q < z + 1) :
    truncToInt q = z := by
  unfold truncToInt
  rw [if_pos h0, Int.floor_eq_iff]
  exact ⟨h1, h2⟩

theorem truncToInt_eq_neg (q : ℚ) (z : Int) (h0 : q < 0) (h1 : (z : ℚ) - 1 < q)
    (h2 : q ≤ z) : truncToInt q = z := by
  unfold truncToInt
  rw [if_neg (not_le.mpr h0), Int.ceil_eq_iff]
  exact ⟨h1, h2⟩

theorem flat_getD (h : Int) (j : Nat) (hj : j < 384) : (flatTerrain h).getD j 0 = h :=
  getD_replicate_lt 384 j h hj

/-- The terrain after `Projectile::Update` of an active projectile. -/
theorem Projectile_Update_terrain (p : Projectile) (terrain : List Int) (player1 player2 : Tank)
    (f : List Int → Vector2 → ℚ → List Int) (h : p.isActive = true) :
    (p.Update terrain player1 player2 f).terrain =
      if hitsTerrain p.integrate.position terrain = true then f terrain p.integrate.position 50
      else terrain := by
  unfold Projectile.Update
  simp only [h, if_true]

theorem Projectile_Update_player1 (p : Projectile) (terrain : List Int) (player1 player2 : Tank)
    (f : List Int → Vector2 → ℚ → List Int) (h : p.isActive = true) :
    (p.Update terrain player1 player2 f).player1 =
      if CheckCollisionRecs p.integrate.rect player1.rect = true then player1.TakeDamage 20
      else player1 := by
  unfold Projectile.Update
  simp only [h, if_true]

theorem Projectile_Update_player2 (p : Projectile) (terrain : List Int) (player1 player2 : Tank)
    (f : List Int → Vector2 → ℚ → List Int) (h : p.isActive = true) :
    (p.Update terrain player1 player2 f).player2 =
      if CheckCollisionRecs p.integrate.rect player2.rect = true then player2.TakeDamage 20
      else player2 := by
  unfold Projectile.Update
  simp only [h, if_true]

/-- An overlap with player 1's box leaves the projectile inactive. -/
theorem Projectile_Update_isActive_of_hit1 (p : Projectile) (terrain : List Int)
    (player1 player2 : Tank) (f : List Int → Vector2 → ℚ → List Int)
    (h : CheckCollisionRecs p.integrate.rect player1.rect = true) :
    (p.Update terrain player1 player2 f).projectile.isActive = false := by
  unfold Projectile.Update
  by_cases ha : p.isActive = true
  · simp only [ha, if_true, h]
    split_ifs <;> rfl
  · simp only [ha, if_false]
    simpa using ha

/-- The bounds check: a position left of 0 or right of `SCREEN_WIDTH` leaves
the projectile inactive. -/
theorem Projectile_Update_isActive_of_out (p : Projectile) (terrain : List Int)
    (player1 player2 : Tank) (f : List Int → Vector2 → ℚ → List Int)
    (h : p.integrate.position.x < 0 ∨ p.integrate.position.x > (SCREEN_WIDTH : ℚ)) :
    (p.Update terrain player1 player2 f).projectile.isActive = false := by
  unfold Projectile.Update
  by_cases ha : p.isActive = true
  · simp only [ha, if_true, h]
    split_ifs <;> rfl
  · simp only [ha, if_false]
    simpa using ha

/-- The part of the bounds claim that the code does satisfy: when the position
after integration is at or left of `-TERRAIN_SEGMENT_WIDTH`, or right of
`SCREEN_WIDTH`, the terrain index is outside the array, the terrain is left
unchanged and the projectile is deactivated. -/
theorem Projectile_Update_far_out (p : Projectile) (terrain : List Int)
    (player1 player2 : Tank) (f : List Int → Vector2 → ℚ → List Int)
    (ha : p.isActive = true)
    (h : p.integrate.position.x ≤ -5 ∨ p.integrate.position.x > (SCREEN_WIDTH : ℚ)) :
    (p.Update terrain player1 player2 f).terrain = terrain ∧
    (p.Update terrain player1 player2 f).projectile.isActive = false := by
  constructor
  · rw [Projectile_Update_terrain _ _ _ _ _ ha, if_neg]
    unfold hitsTerrain
    simp only [decide_eq_true_eq]
    rintro ⟨h1, h2, -⟩
    unfold truncToInt TERRAIN_SEGMENT_WIDTH at h1 h2
    rw [terrainWidth_eq] at h2
    unfold SCREEN_WIDTH at h
    push_cast at h1 h2 h
    rcases h with h | h
    · have hq : p.integrate.position.x / 5 ≤ ((-1 : Int) : ℚ) := by
        push_cast
        linarith
      have hneg : ¬ (0 ≤ p.integrate.position.x / 5) := by
        push_cast at hq
        linarith
      rw [if_neg hneg] at h1
      have := Int.ceil_le.mpr hq
      omega
    · have hq : ((384 : Int) : ℚ) ≤ p.integrate.position.x / 5 := by
        push_cast
        linarith
      have hpos : 0 ≤ p.integrate.position.x / 5 := by
        push_cast at hq
        linarith
      rw [if_pos hpos] at h2
      have := Int.le_floor.mpr hq
      omega
  · apply Projectile_Update_isActive_of_out
    rcases h with h | h
    · left
      linarith
    · right
      exact h

theorem edgeShot_position : edgeShot.integrate.position = ⟨-2, 11503 / 10⟩ := by
  simp only [edgeShot, Projectile.integrate]
  norm_num

theorem edgeShot_hitsTerrain :
    hitsTerrain edgeShot.integrate.position (flatTerrain 100) = true := by
  have hi : truncToInt ((-2 : ℚ) / TERRAIN_SEGMENT_WIDTH) = 0 := by
    apply truncToInt_eq_neg <;> (unfold TERRAIN_SEGMENT_WIDTH; norm_num)
  rw [edgeShot_position]
  unfold hitsTerrain
  simp only [hi]
  rw [Int.toNat_zero, flat_getD 100 0 (by norm_num)]
  norm_num [TERRAIN_WIDTH, SCREEN_HEIGHT, SCREEN_WIDTH, TERRAIN_SEGMENT_WIDTH]

/-- C6 (the code at the failing input): an active projectile at (1, 1150) with
velocity (-3, 0) above a flat terrain of height 100.  After integration its x
is -2, outside `[0, SCREEN_WIDTH]`, and the projectile is deactivated; but
`(int)(-2 / 5)` truncates to terrain index 0, the terrain test succeeds
(y = 1150.3 ≥ 1200 - 100), and a crater is carved: segment 0 drops from 100
to 51. -/
theorem C6_left_edge_crater :
    edgeShot.isActive = true ∧
    edgeShot.integrate.position.x = -2 ∧
    (edgeShot.Update (flatTerrain 100) (standingTank 100 100 100) (standingTank 1700 100 100)
      HandleTerrainImpact).projectile.isActive = false ∧
    (flatTerrain 100).getD 0 0 = 100 ∧
    (edgeShot.Update (flatTerrain 100) (standingTank 100 100 100) (standingTank 1700 100 100)
      HandleTerrainImpact).terrain.getD 0 0 = 51 := by
  have hx : edgeShot.integrate.position.x = -2 := by rw [edgeShot_position]
  refine ⟨rfl, hx, ?_, flat_getD 100 0 (by norm_num), ?_⟩
  · apply Projectile_Update_isActive_of_out
    left
    rw [hx]
    norm_num
  · rw [Projectile_Update_terrain _ _ _ _ _ rfl, if_pos edgeShot_hitsTerrain, edgeShot_position,
      HandleTerrainImpact_getD]
    have hidx : impactIndex ⟨-2, 11503 / 10⟩ = 0 := by
      unfold impactIndex
      apply truncToInt_eq_neg <;> (unfold TERRAIN_SEGMENT_WIDTH; norm_num)
    have hd : distanceToImpact ⟨-2, 11503 / 10⟩ ((0 : Nat) : Int) = 2 := by
      unfold distanceToImpact TERRAIN_SEGMENT_WIDTH
      norm_num
    have hw : inWindow ⟨-2, 11503 / 10⟩ 50 ((0 : Nat) : Int) := by
      unfold inWindow
      rw [hidx, impactRadius_50]
      norm_num
    have hdepth : craterDepth ⟨-2, 11503 / 10⟩ 50 ((0 : Nat) : Int) = 49 := by
      unfold craterDepth sqrtToInt
      rw [hd]
      have hf : ⌊(50 : ℚ) * 50 - 2 * 2⌋ = 2496 := by
        norm_num [Int.floor_eq_iff]
      rw [hf]
      have hs : Nat.sqrt (2496 : Int).toNat = 49 := by
        symm
        rw [Nat.eq_sqrt]
        constructor <;> decide
      rw [hs]
      rfl
    rw [if_pos ⟨hw, by rw [terrainWidth_eq]; norm_num, by rw [hd]; norm_num⟩, hdepth,
      flat_getD 100 0 (by norm_num)]
    norm_num

/-! ## Shooting -/

/-- C7 (amended): `Projectile::Shoot` has no guard of its own: for every
projectile state, active or not, it sets the position to the origin, stores the
gravity argument and leaves the projectile active.  The silent no-op for a shot
already in flight is provided by the caller: `Game::HandlePlayerShooting`
leaves the whole game state (projectile included) unchanged whenever
`projectileActive` is set. -/
theorem C7_shoot_gated_by_caller (ops : FloatOps) (p : Projectile)
    (startPos targetPos : Vector2) (initialVelocity grav : ℚ)
    (g : Game) (player : Tank) (inp : Input) :
    ((p.Shoot ops startPos targetPos initialVelocity grav).position = startPos ∧
      (p.Shoot ops startPos targetPos initialVelocity grav).gravity = grav ∧
      (p.Shoot ops startPos targetPos initialVelocity grav).isActive = true) ∧
    (g.projectileActive = true → Game.HandlePlayerShooting ops g player inp = g) := by
  refine ⟨⟨rfl, rfl, rfl⟩, ?_⟩
  intro h
  unfold Game.HandlePlayerShooting
  rw [if_neg]
  rintro ⟨h1, -⟩
  rw [h] at h1
  exact Bool.noConfusion h1

/-- Witness for C7: a second shot requested while the shot of `duelGame` is in
flight. -/
theorem C7_shoot_gated_by_caller_witness :
    duelGame.projectileActive = true ∧
    Game.HandlePlayerShooting exampleOps duelGame duelGame.player1
      { noInput with mouseLeft := true, mousePos := ⟨600, 600⟩ } = duelGame :=
  ⟨rfl, (C7_shoot_gated_by_caller exampleOps duelGame.currentProjectile ⟨0, 0⟩ ⟨3, 4⟩ 5 (3 / 10)
    duelGame duelGame.player1 { noInput with mouseLeft := true, mousePos := ⟨600, 600⟩ }).2 rfl⟩

/-- Counterexample to C7 as stated: `Shoot` called on an active projectile at
(0, 0) with gravity 3/10, with origin (10, 10), target (13, 14), speed 5 and
gravity 1/2, moves it to (10, 10) and overwrites its gravity. -/
theorem C7_counterexample :
    (flyingShot ⟨0, 0⟩ ⟨1, 1⟩).isActive = true ∧
    ((flyingShot ⟨0, 0⟩ ⟨1, 1⟩).Shoot exampleOps ⟨10, 10⟩ ⟨13, 14⟩ 5 (1 / 2)).position ≠
      (flyingShot ⟨0, 0⟩ ⟨1, 1⟩).position ∧
    ((flyingShot ⟨0, 0⟩ ⟨1, 1⟩).Shoot exampleOps ⟨10, 10⟩ ⟨13, 14⟩ 5 (1 / 2)).gravity ≠
      (flyingShot ⟨0, 0⟩ ⟨1, 1⟩).gravity := by
  refine ⟨rfl, ?_, ?_⟩
  · simp only [Projectile.Shoot, flyingShot]
    intro h
    have hx := congrArg Vector2.x h
    norm_num at hx
  · simp only [Projectile.Shoot, flyingShot]
    norm_num

/-! ## Turn and score handling -/

theorem playStep_scoreboard (ops : FloatOps) (g : Game) (inp : Input) :
    (Game.playStep ops g inp).scoreboard = g.scoreboard := by
  unfold Game.playStep Game.HandlePlayerShooting
  dsimp only
  split_ifs <;> rfl

theorem playStep_isPlayer1Turn (ops : FloatOps) (g : Game) (inp : Input) :
    (Game.playStep ops g inp).isPlayer1Turn = g.isPlayer1Turn := by
  unfold Game.playStep Game.HandlePlayerShooting
  dsimp only
  split_ifs <;> rfl

theorem playStep_currentState (ops : FloatOps) (g : Game) (inp : Input) :
    (Game.playStep ops g inp).currentState = g.currentState := by
  unfold Game.playStep Game.HandlePlayerShooting
  dsimp only
  split_ifs <;> rfl

/-- While a shot is in flight the `GAME_PLAY` frame is gravity on both tanks
followed by the projectile step. -/
theorem playStep_of_active (ops : FloatOps) (g : Game) (inp : Input)
    (h : g.projectileActive = true) :
    Game.playStep ops g inp =
      { g with
        currentProjectile := (g.currentProjectile.Update g.terrain
          (g.player1.ApplyGravity g.terrain) (g.player2.ApplyGravity g.terrain)
          HandleTerrainImpact).projectile,
        terrain := (g.currentProjectile.Update g.terrain
          (g.player1.ApplyGravity g.terrain) (g.player2.ApplyGravity g.terrain)
          HandleTerrainImpact).terrain,
        player1 := (g.currentProjectile.Update g.terrain
          (g.player1.ApplyGravity g.terrain) (g.player2.ApplyGravity g.terrain)
          HandleTerrainImpact).player1,
        player2 := (g.currentProjectile.Update g.terrain
          (g.player1.ApplyGravity g.terrain) (g.player2.ApplyGravity g.terrain)
          HandleTerrainImpact).player2 } := by
  unfold Game.playStep
  simp [h]

theorem Update_of_play (ops : FloatOps) (g : Game) (inp : Input)
    (hplay : g.currentState = GameState.GAME_PLAY) :
    Game.Update ops g inp = Game.resolveShot (Game.playStep ops g inp) := by
  unfold Game.Update
  rw [hplay]

/-- A tank resting on a flat terrain is left where it is by `ApplyGravity`. -/
theorem standingTank_ApplyGravity (x : ℚ) (h health : Int) (idx : Nat)
    (hidx : truncToInt (x / (TERRAIN_SEGMENT_WIDTH : ℚ)) = (idx : Int)) (hlt : idx < 384) :
    (standingTank x h health).ApplyGravity (flatTerrain h) = standingTank x h health := by
  unfold Tank.ApplyGravity
  simp only [standingTank, Tank.init, hidx, Int.toNat_ofNat]
  rw [flat_getD h idx hlt, terrainWidth_eq]
  have h1 : (0 : Int) ≤ (idx : Int) ∧ (idx : Int) < 384 := by omega
  rw [if_pos h1, if_pos (by push_cast; linarith)]

theorem duel_gravity1 :
    duelGame.player1.ApplyGravity duelGame.terrain = standingTank 500 470 20 :=
  standingTank_ApplyGravity 500 470 20 100
    (by apply truncToInt_eq <;> (unfold TERRAIN_SEGMENT_WIDTH; norm_num)) (by norm_num)

theorem duel_gravity2 :
    duelGame.player2.ApplyGravity duelGame.terrain = standingTank 520 470 20 :=
  standingTank_ApplyGravity 520 470 20 104
    (by apply truncToInt_eq <;> (unfold TERRAIN_SEGMENT_WIDTH; norm_num)) (by norm_num)

theorem duel_hit1 :
    CheckCollisionRecs duelGame.currentProjectile.integrate.rect
      (standingTank 500 470 20).rect = true := by
  simp only [duelGame, CheckCollisionRecs, Projectile.rect, Projectile.integrate, flyingShot,
    Tank.rect, standingTank, Tank.init, SCREEN_HEIGHT]
  norm_num

theorem duel_hit2 :
    CheckCollisionRecs duelGame.currentProjectile.integrate.rect
      (standingTank 520 470 20).rect = true := by
  simp only [duelGame, CheckCollisionRecs, Projectile.rect, Projectile.integrate, flyingShot,
    Tank.rect, standingTank, Tank.init, SCREEN_HEIGHT]
  norm_num

/-- The frame of `duelGame`: the shot enters both boxes, is deactivated, and
both tanks drop from 20 to 0 health. -/
theorem duel_playStep :
    (Game.playStep exampleOps duelGame noInput).projectileActive = true ∧
    (Game.playStep exampleOps duelGame noInput).currentProjectile.isActive = false ∧
    (Game.playStep exampleOps duelGame noInput).player1.health = 0 ∧
    (Game.playStep exampleOps duelGame noInput).player2.health = 0 := by
  rw [playStep_of_active exampleOps duelGame noInput rfl, duel_gravity1, duel_gravity2]
  refine ⟨rfl, ?_, ?_, ?_⟩
  · exact Projectile_Update_isActive_of_hit1 _ _ _ _ _ duel_hit1
  · dsimp only
    rw [Projectile_Update_player1 _ _ _ _ _ rfl, if_pos duel_hit1]
    rfl
  · dsimp only
    rw [Projectile_Update_player2 _ _ _ _ _ rfl, if_pos duel_hit2]
    rfl

/-- C8 (amended): in every `GAME_PLAY` frame in which a shot resolves
(`projectileActive` set and the projectile inactive after its step) with a
tank's health at ≤ 0, the match state becomes `GAME_OVER`; if player 1's health
is ≤ 0, exactly 10 points are added to player 2's score and player 1's score is
unchanged, also when player 2's health is ≤ 0 as well; otherwise (player 2's
health ≤ 0, player 1's > 0) exactly 10 points are added to player 1's score and
player 2's score is unchanged. -/
theorem C8_win_condition (ops : FloatOps) (g : Game) (inp : Input)
    (hplay : g.currentState = GameState.GAME_PLAY)
    (hres : (Game.playStep ops g inp).projectileActive = true ∧
      (Game.playStep ops g inp).currentProjectile.isActive = false)
    (hdead : (Game.playStep ops g inp).player1.health ≤ 0 ∨
      (Game.playStep ops g inp).player2.health ≤ 0) :
    (Game.Update ops g inp).currentState = GameState.GAME_OVER ∧
    ((Game.playStep ops g inp).player1.health ≤ 0 →
      (Game.Update ops g inp).scoreboard.player2Score = g.scoreboard.player2Score + 10 ∧
      (Game.Update ops g inp).scoreboard.player1Score = g.scoreboard.player1Score) ∧
    (0 < (Game.playStep ops g inp).player1.health →
      (Game.Update ops g inp).scoreboard.player1Score = g.scoreboard.player1Score + 10 ∧
      (Game.Update ops g inp).scoreboard.player2Score = g.scoreboard.player2Score) := by
  have hs := playStep_scoreboard ops g inp
  rw [Update_of_play ops g inp hplay]
  unfold Game.resolveShot
  rw [if_pos hres]
  by_cases h1 : (Game.playStep ops g inp).player1.health ≤ 0
  · simp [h1, Scoreboard.AddScore, hs]
  · have h2 : (Game.playStep ops g inp).player2.health ≤ 0 := hdead.resolve_left h1
    simp [h1, h2, Scoreboard.AddScore, hs]

/-- Witness for C8: the frame of `duelGame`, in which player 1's tank reaches
health 0. -/
theorem C8_win_condition_witness :
    (Game.Update exampleOps duelGame noInput).currentState = GameState.GAME_OVER ∧
    ((Game.playStep exampleOps duelGame noInput).player1.health ≤ 0 →
      (Game.Update exampleOps duelGame noInput).scoreboard.player2Score =
        duelGame.scoreboard.player2Score + 10 ∧
      (Game.Update exampleOps duelGame noInput).scoreboard.player1Score =
        duelGame.scoreboard.player1Score) ∧
    (0 < (Game.playStep exampleOps duelGame noInput).player1.health →
      (Game.Update exampleOps duelGame noInput).scoreboard.player1Score =
        duelGame.scoreboard.player1Score + 10 ∧
      (Game.Update exampleOps duelGame noInput).scoreboard.player2Score =
        duelGame.scoreboard.player2Score) :=
  C8_win_condition exampleOps duelGame noInput rfl
    ⟨duel_playStep.1, duel_playStep.2.1⟩ (Or.inl (le_of_eq duel_playStep.2.2.1))

/-- Counterexample to C8 as stated: in the frame of `duelGame` the shot
resolves with both tanks at health 0.  Player 2's tank is destroyed, yet the
other player (player 1) is not awarded 10 points, and the score of player 2,
whose tank was destroyed, changes (it receives the 10 points). -/
theorem C8_counterexample :
    duelGame.currentState = GameState.GAME_PLAY ∧
    ((Game.playStep exampleOps duelGame noInput).projectileActive = true ∧
      (Game.playStep exampleOps duelGame noInput).currentProjectile.isActive = false) ∧
    (Game.playStep exampleOps duelGame noInput).player1.health ≤ 0 ∧
    (Game.playStep exampleOps duelGame noInput).player2.health ≤ 0 ∧
    (Game.Update exampleOps duelGame noInput).scoreboard.player1Score ≠
      duelGame.scoreboard.player1Score + 10 ∧
    (Game.Update exampleOps duelGame noInput).scoreboard.player2Score ≠
      duelGame.scoreboard.player2Score := by
  obtain ⟨h1, h2, h3, h4⟩ := duel_playStep
  have hU := Update_of_play exampleOps duelGame noInput rfl
  have hs := playStep_scoreboard exampleOps duelGame noInput
  refine ⟨rfl, ⟨h1, h2⟩, le_of_eq h3, le_of_eq h4, ?_, ?_⟩
  · rw [hU]
    unfold Game.resolveShot
    rw [if_pos ⟨h1, h2⟩]
    dsimp only
    rw [if_pos (le_of_eq h3), hs]
    decide
  · rw [hU]
    unfold Game.resolveShot
    rw [if_pos ⟨h1, h2⟩]
    dsimp only
    rw [if_pos (le_of_eq h3), hs]
    decide

/-- A tank is created with health 100. -/
theorem Tank_init_health (tankSpeed : ℚ) (startPosition : Vector2) :
    (Tank.init tankSpeed startPosition).health = 100 := rfl

/-- A hit (non-negative damage) keeps a health in `[0, 100]` in `[0, 100]`. -/
theorem TakeDamage_range (t : Tank) (damage : Int) (hd : 0 ≤ damage)
    (h : 0 ≤ t.health ∧ t.health ≤ 100) :
    0 ≤ (t.TakeDamage damage).health ∧ (t.TakeDamage damage).health ≤ 100 := by
  unfold Tank.TakeDamage
  dsimp only
  split_ifs <;> omega

/-- The restart branch of `Game::Draw` adds 100 to each non-negative health
instead of setting it to 100. -/
theorem Draw_restart_health (g : Game) (inp : Input)
    (hover : g.currentState = GameState.GAME_OVER) (hR : inp.keyR = true)
    (h1 : 0 ≤ g.player1.health) (h2 : 0 ≤ g.player2.health) :
    (Game.Draw g inp).player1.health = g.player1.health + 100 ∧
    (Game.Draw g inp).player2.health = g.player2.health + 100 := by
  unfold Game.Draw
  rw [hover]
  simp only [hR, if_true]
  have e1 : ((g.player1.SetPosition ⟨100, 800⟩).TakeDamage (-100)).health =
      g.player1.health + 100 := by
    simp only [Tank.TakeDamage, Tank.SetPosition]
    split_ifs <;> omega
  have e2 : ((g.player2.SetPosition ⟨1700, 800⟩).TakeDamage (-100)).health =
      g.player2.health + 100 := by
    simp only [Tank.TakeDamage, Tank.SetPosition]
    split_ifs <;> omega
  split_ifs <;> exact ⟨e1, e2⟩

/-- The restart branch on the game-over screen `wonGame` (healths 100 and 0):
player 1 restarts at health 200. -/
theorem wonGame_restart :
    wonGame.currentState = GameState.GAME_OVER ∧
    wonGame.player1.health = 100 ∧
    wonGame.player2.health = 0 ∧
    (Game.Draw wonGame pressR).currentState = GameState.GAME_PLAY ∧
    (Game.Draw wonGame pressR).player1.health = 200 ∧
    (Game.Draw wonGame pressR).player2.health = 100 := by
  have h := Draw_restart_health wonGame pressR rfl rfl (by decide) (by decide)
  refine ⟨rfl, rfl, rfl, rfl, ?_, ?_⟩
  · rw [h.1]
    rfl
  · rw [h.2]
    rfl

theorem miss_gravity1 :
    missGame.player1.ApplyGravity missGame.terrain = standingTank 100 100 100 :=
  standingTank_ApplyGravity 100 100 100 20
    (by apply truncToInt_eq <;> (unfold TERRAIN_SEGMENT_WIDTH; norm_num)) (by norm_num)

theorem miss_gravity2 :
    missGame.player2.ApplyGravity missGame.terrain = standingTank 1700 100 100 :=
  standingTank_ApplyGravity 1700 100 100 340
    (by apply truncToInt_eq <;> (unfold TERRAIN_SEGMENT_WIDTH; norm_num)) (by norm_num)

theorem miss_out :
    missGame.currentProjectile.integrate.position.x < 0 ∨
      missGame.currentProjectile.integrate.position.x > (SCREEN_WIDTH : ℚ) := by
  right
  simp only [missGame, Projectile.integrate, flyingShot, SCREEN_WIDTH]
  norm_num

theorem miss_hit1 :
    ¬ CheckCollisionRecs missGame.currentProjectile.integrate.rect
      (standingTank 100 100 100).rect = true := by
  simp only [missGame, CheckCollisionRecs, Projectile.rect, Projectile.integrate, flyingShot,
    Tank.rect, standingTank, Tank.init, SCREEN_HEIGHT]
  norm_num

theorem miss_hit2 :
    ¬ CheckCollisionRecs missGame.currentProjectile.integrate.rect
      (standingTank 1700 100 100).rect = true := by
  simp only [missGame, CheckCollisionRecs, Projectile.rect, Projectile.integrate, flyingShot,
    Tank.rect, standingTank, Tank.init, SCREEN_HEIGHT]
  norm_num

/-- The frame of `missGame`: the shot leaves the screen on the right, is
deactivated, and both tanks keep health 100. -/
theorem miss_playStep :
    (Game.playStep exampleOps missGame noInput).projectileActive = true ∧
    (Game.playStep exampleOps missGame noInput).currentProjectile.isActive = false ∧
    (Game.playStep exampleOps missGame noInput).player1.health = 100 ∧
    (Game.playStep exampleOps missGame noInput).player2.health = 100 := by
  rw [playStep_of_active exampleOps missGame noInput rfl, miss_gravity1, miss_gravity2]
  refine ⟨rfl, ?_, ?_, ?_⟩
  · exact Projectile_Update_isActive_of_out _ _ _ _ _ miss_out
  · dsimp only
    rw [Projectile_Update_player1 _ _ _ _ _ rfl, if_neg miss_hit1]
    rfl
  · dsimp only
    rw [Projectile_Update_player2 _ _ _ _ _ rfl, if_neg miss_hit2]
    rfl

/-- C10: in every `GAME_PLAY` frame in which a shot resolves (`projectileActive`
set and the projectile inactive after its step) and both tanks have health
> 0, `isPlayer1Turn` ends as the negation of its value at the start of the
frame, both tanks' `currentMovement` are 0, the scores are unchanged, the match
state is still `GAME_PLAY`, and `projectileActive` is cleared. -/
theorem C10_turn_alternation (ops : FloatOps) (g : Game) (inp : Input)
    (hplay : g.currentState = GameState.GAME_PLAY)
    (hres : (Game.playStep ops g inp).projectileActive = true ∧
      (Game.playStep ops g inp).currentProjectile.isActive = false)
    (h1 : 0 < (Game.playStep ops g inp).player1.health)
    (h2 : 0 < (Game.playStep ops g inp).player2.health) :
    (Game.Update ops g inp).isPlayer1Turn = (!g.isPlayer1Turn) ∧
    (Game.Update ops g inp).player1.currentMovement = 0 ∧
    (Game.Update ops g inp).player2.currentMovement = 0 ∧
    (Game.Update ops g inp).scoreboard = g.scoreboard ∧
    (Game.Update ops g inp).currentState = GameState.GAME_PLAY ∧
    (Game.Update ops g inp).projectileActive = false := by
  rw [Update_of_play ops g inp hplay]
  unfold Game.resolveShot
  rw [if_pos hres]
  dsimp only
  rw [if_neg (not_le.mpr h1), if_neg (not_le.mpr h2)]
  refine ⟨?_, rfl, rfl, ?_, ?_, rfl⟩
  · rw [playStep_isPlayer1Turn]
  · exact playStep_scoreboard ops g inp
  · rw [playStep_currentState, hplay]

/-- Witness for C10: the frame of `missGame`, in which the shot leaves the
screen and both tanks are unhurt. -/
theorem C10_turn_alternation_witness :
    (Game.Update exampleOps missGame noInput).isPlayer1Turn = (!missGame.isPlayer1Turn) ∧
    (Game.Update exampleOps missGame noInput).player1.currentMovement = 0 ∧
    (Game.Update exampleOps missGame noInput).player2.currentMovement = 0 ∧
    (Game.Update exampleOps missGame noInput).scoreboard = missGame.scoreboard ∧
    (Game.Update exampleOps missGame noInput).currentState = GameState.GAME_PLAY ∧
    (Game.Update exampleOps missGame noInput).projectileActive = false :=
  C10_turn_alternation exampleOps missGame noInput rfl
    ⟨miss_playStep.1, miss_playStep.2.1⟩
    (by rw [miss_playStep.2.2.1]; decide) (by rw [miss_playStep.2.2.2]; decide)

/-! ## A reachable state with health above 100 -/

theorem exampleOps_sqrt_25 : exampleOps.sqrt 25 = 5 := by
  show ((sqrtToInt 25 : Int) : ℚ) = 5
  unfold sqrtToInt
  have hf : ⌊(25 : ℚ)⌋ = 25 := by
    norm_num [Int.floor_eq_iff]
  rw [hf]
  have hs : Nat.sqrt (25 : Int).toNat = 5 := by
    symm
    rw [Nat.eq_sqrt]
    constructor <;> decide
  rw [hs]
  norm_num

theorem ApplyGravity_fields (t : Tank) (terrain : List Int) :
    (t.ApplyGravity terrain).position.x = t.position.x ∧
    (t.ApplyGravity terrain).health = t.health ∧
    (t.ApplyGravity terrain).width = t.width ∧
    (t.ApplyGravity terrain).height = t.height := by
  unfold Tank.ApplyGravity
  dsimp only
  split_ifs <;> exact ⟨rfl, rfl, rfl, rfl⟩

theorem HandleInput_idle (ops : FloatOps) (t : Tank) (terrain : List Int)
    (hx0 : 0 ≤ t.position.x) (hx1 : t.position.x ≤ 1870) (hw : t.width = 50) :
    (t.HandleInput ops terrain false false).position = t.position ∧
    (t.HandleInput ops terrain false false).health = t.health ∧
    (t.HandleInput ops terrain false false).width = t.width ∧
    (t.HandleInput ops terrain false false).height = t.height := by
  unfold Tank.HandleInput
  have h1 : ¬ (t.position.x < 0) := not_lt.mpr hx0
  have h2 : ¬ (t.position.x > ((SCREEN_WIDTH - t.width : Int) : ℚ)) := by
    rw [hw]
    unfold SCREEN_WIDTH
    push_cast
    linarith
  simp only [Bool.false_eq_true, false_and, if_false, h1, h2]
  split_ifs <;> exact ⟨rfl, rfl, rfl, rfl⟩

/-- The box, after its first step, of a shot fired from `P` at the point 3 right
of and 4 below `P`. -/
theorem selfShot_rect (p : Projectile) (P : Vector2) (hw : p.width = 10) (hh : p.height = 10) :
    (p.Shoot exampleOps P ⟨P.x + 3, P.y + 4⟩
      (RemapValue (exampleOps.sqrt ((P.x + 3 - P.x) ^ 2 + (P.y + 4 - P.y) ^ 2)) 0 500 1 10)
      (3 / 10)).integrate.rect =
      ⟨P.x + 327 / 500 - 5, P.y + 293 / 250 - 5, 10, 10⟩ := by
  have e1 : (P.x + 3 - P.x) ^ 2 + (P.y + 4 - P.y) ^ 2 = 25 := by ring
  have e2 : (P.x + 3 - P.x) * (P.x + 3 - P.x) + (P.y + 4 - P.y) * (P.y + 4 - P.y) = 25 := by
    ring
  rw [e1]
  simp only [Projectile.Shoot, Projectile.integrate, Projectile.rect, e2, exampleOps_sqrt_25,
    RemapValue, hw, hh]
  norm_num

theorem playStep_fire1 (ops : FloatOps) (g : Game) (inp : Input)
    (h : g.projectileActive = false) (ht : g.isPlayer1Turn = true)
    (hm : inp.mouseLeft = true) :
    (Game.playStep ops g inp).projectileActive = true ∧
    (Game.playStep ops g inp).currentProjectile =
      ((shotFired ops g inp).Update g.terrain (movedTank ops g inp)
        (g.player2.ApplyGravity g.terrain) HandleTerrainImpact).projectile ∧
    (Game.playStep ops g inp).player1 =
      ((shotFired ops g inp).Update g.terrain (movedTank ops g inp)
        (g.player2.ApplyGravity g.terrain) HandleTerrainImpact).player1 ∧
    (Game.playStep ops g inp).player2 =
      ((shotFired ops g inp).Update g.terrain (movedTank ops g inp)
        (g.player2.ApplyGravity g.terrain) HandleTerrainImpact).player2 := by
  unfold Game.playStep Game.HandlePlayerShooting shotFired movedTank
  simp [h, ht, hm]

theorem playStep_fire2 (ops : FloatOps) (g : Game) (inp : Input)
    (h : g.projectileActive = false) (ht : g.isPlayer1Turn = false)
    (hm : inp.mouseLeft = true) :
    (Game.playStep ops g inp).projectileActive = true ∧
    (Game.playStep ops g inp).currentProjectile =
      ((shotFired ops g inp).Update g.terrain (g.player1.ApplyGravity g.terrain)
        (movedTank ops g inp) HandleTerrainImpact).projectile ∧
    (Game.playStep ops g inp).player1 =
      ((shotFired ops g inp).Update g.terrain (g.player1.ApplyGravity g.terrain)
        (movedTank ops g inp) HandleTerrainImpact).player1 ∧
    (Game.playStep ops g inp).player2 =
      ((shotFired ops g inp).Update g.terrain (g.player1.ApplyGravity g.terrain)
        (movedTank ops g inp) HandleTerrainImpact).player2 := by
  unfold Game.playStep Game.HandlePlayerShooting shotFired movedTank
  simp [h, ht, hm]

theorem Projectile_Update_dims (p : Projectile) (terrain : List Int) (player1 player2 : Tank)
    (f : List Int → Vector2 → ℚ → List Int) :
    (p.Update terrain player1 player2 f).projectile.width = p.width ∧
    (p.Update terrain player1 player2 f).projectile.height = p.height := by
  unfold Projectile.Update
  split_ifs <;> exact ⟨rfl, rfl⟩

theorem TakeDamage_fields (t : Tank) (d : Int) :
    (t.TakeDamage d).position = t.position ∧ (t.TakeDamage d).width = t.width ∧
    (t.TakeDamage d).height = t.height ∧
    (t.TakeDamage d).health = if t.health - d < 0 then 0 else t.health - d :=
  ⟨rfl, rfl, rfl, rfl⟩

theorem selfHit1_playStep (g : Game) (h1 h2 : Int) (hp : Placed g h1 h2)
    (ha : g.projectileActive = false) (ht : g.isPlayer1Turn = true) :
    (Game.playStep exampleOps g (selfHitInput g)).projectileActive = true ∧
    (Game.playStep exampleOps g (selfHitInput g)).currentProjectile.isActive = false ∧
    Placed (Game.playStep exampleOps g (selfHitInput g)) (if h1 - 20 < 0 then 0 else h1 - 20) h2 := by
  obtain ⟨hh1, hh2, hx1, hx2, hw1, hg1, hw2, hg2, hpw, hph⟩ := hp
  obtain ⟨f1, f2, f3, f4⟩ := playStep_fire1 exampleOps g (selfHitInput g) ha ht rfl
  obtain ⟨a1x, a1h, a1w, a1g⟩ := ApplyGravity_fields g.player1 g.terrain
  obtain ⟨a2x, a2h, a2w, a2g⟩ := ApplyGravity_fields g.player2 g.terrain
  have hT : movedTank exampleOps g (selfHitInput g) =
      (g.player1.ApplyGravity g.terrain).HandleInput exampleOps g.terrain false false := by
    unfold movedTank
    rw [if_pos ht]
    rfl
  have hT0 : movedTank exampleOps g noInput =
      (g.player1.ApplyGravity g.terrain).HandleInput exampleOps g.terrain false false := by
    unfold movedTank
    rw [if_pos ht]
    rfl
  obtain ⟨tp, th, tw, tg⟩ := HandleInput_idle exampleOps (g.player1.ApplyGravity g.terrain)
    g.terrain (by rw [a1x, hx1]; norm_num) (by rw [a1x, hx1]; norm_num) (by rw [a1w, hw1])
  have hrect : (shotFired exampleOps g (selfHitInput g)).integrate.rect =
      ⟨(movedTank exampleOps g noInput).position.x + 327 / 500 - 5,
        (movedTank exampleOps g noInput).position.y + 293 / 250 - 5, 10, 10⟩ := by
    have := selfShot_rect g.currentProjectile (movedTank exampleOps g noInput).position hpw hph
    unfold shotFired
    rw [hT, ← hT0]
    exact this
  have hPx : (movedTank exampleOps g noInput).position.x = 100 := by
    rw [hT0, tp, a1x, hx1]
  have hit1 : CheckCollisionRecs (shotFired exampleOps g (selfHitInput g)).integrate.rect
      (movedTank exampleOps g (selfHitInput g)).rect = true := by
    rw [hrect, hT, ← hT0]
    unfold CheckCollisionRecs Tank.rect
    rw [hT0, tw, tg, a1w, a1g, hw1, hg1]
    simp only [decide_eq_true_eq]
    push_cast
    refine ⟨⟨by linarith, by linarith⟩, by linarith, by linarith⟩
  have hit2 : ¬ CheckCollisionRecs (shotFired exampleOps g (selfHitInput g)).integrate.rect
      (g.player2.ApplyGravity g.terrain).rect = true := by
    rw [hrect, hPx]
    unfold CheckCollisionRecs Tank.rect
    rw [a2x, hx2]
    simp only [decide_eq_true_eq]
    rintro ⟨⟨-, h⟩, -⟩
    norm_num at h
  have hact : (shotFired exampleOps g (selfHitInput g)).isActive = true := rfl
  refine ⟨f1, ?_, ?_⟩
  · rw [f2]
    exact Projectile_Update_isActive_of_hit1 _ _ _ _ _ hit1
  · unfold Placed
    rw [f2, f3, f4, Projectile_Update_player1 _ _ _ _ _ hact, if_pos hit1,
      Projectile_Update_player2 _ _ _ _ _ hact, if_neg hit2]
    obtain ⟨d1, d2⟩ := Projectile_Update_dims (shotFired exampleOps g (selfHitInput g))
      g.terrain (movedTank exampleOps g (selfHitInput g)) (g.player2.ApplyGravity g.terrain)
      HandleTerrainImpact
    rw [d1, d2]
    obtain ⟨k1, k2, k3, k4⟩ := TakeDamage_fields (movedTank exampleOps g (selfHitInput g)) 20
    rw [k1, k2, k3, k4, hT, tp, th, tw, tg, a1x, a1h, a1w, a1g, a2x, a2h, a2w, a2g]
    exact ⟨by rw [hh1], hh2, hx1, hx2, hw1, hg1, hw2, hg2, hpw, hph⟩

theorem Projectile_Update_isActive_of_hit2 (p : Projectile) (terrain : List Int)
    (player1 player2 : Tank) (f : List Int → Vector2 → ℚ → List Int)
    (h : CheckCollisionRecs p.integrate.rect player2.rect = true) :
    (p.Update terrain player1 player2 f).projectile.isActive = false := by
  unfold Projectile.Update
  by_cases ha : p.isActive = true
  · simp only [ha, if_true, h]
  · simp only [ha, if_false]
    simpa using ha

theorem selfHit2_playStep (g : Game) (h1 h2 : Int) (hp : Placed g h1 h2)
    (ha : g.projectileActive = false) (ht : g.isPlayer1Turn = false) :
    (Game.playStep exampleOps g (selfHitInput g)).projectileActive = true ∧
    (Game.playStep exampleOps g (selfHitInput g)).currentProjectile.isActive = false ∧
    Placed (Game.playStep exampleOps g (selfHitInput g)) h1 (if h2 - 20 < 0 then 0 else h2 - 20) := by
  obtain ⟨hh1, hh2, hx1, hx2, hw1, hg1, hw2, hg2, hpw, hph⟩ := hp
  obtain ⟨f1, f2, f3, f4⟩ := playStep_fire2 exampleOps g (selfHitInput g) ha ht rfl
  obtain ⟨a1x, a1h, a1w, a1g⟩ := ApplyGravity_fields g.player1 g.terrain
  obtain ⟨a2x, a2h, a2w, a2g⟩ := ApplyGravity_fields g.player2 g.terrain
  have hT : movedTank exampleOps g (selfHitInput g) =
      (g.player2.ApplyGravity g.terrain).HandleInput exampleOps g.terrain false false := by
    unfold movedTank
    rw [if_neg (by rw [ht]; exact Bool.false_ne_true)]
    rfl
  have hT0 : movedTank exampleOps g noInput =
      (g.player2.ApplyGravity g.terrain).HandleInput exampleOps g.terrain false false := by
    unfold movedTank
    rw [if_neg (by rw [ht]; exact Bool.false_ne_true)]
    rfl
  obtain ⟨tp, th, tw, tg⟩ := HandleInput_idle exampleOps (g.player2.ApplyGravity g.terrain)
    g.terrain (by rw [a2x, hx2]; norm_num) (by rw [a2x, hx2]; norm_num) (by rw [a2w, hw2])
  have hrect : (shotFired exampleOps g (selfHitInput g)).integrate.rect =
      ⟨(movedTank exampleOps g noInput).position.x + 327 / 500 - 5,
        (movedTank exampleOps g noInput).position.y + 293 / 250 - 5, 10, 10⟩ := by
    have := selfShot_rect g.currentProjectile (movedTank exampleOps g noInput).position hpw hph
    unfold shotFired
    rw [hT, ← hT0]
    exact this
  have hPx : (movedTank exampleOps g noInput).position.x = 1700 := by
    rw [hT0, tp, a2x, hx2]
  have hit2 : CheckCollisionRecs (shotFired exampleOps g (selfHitInput g)).integrate.rect
      (movedTank exampleOps g (selfHitInput g)).rect = true := by
    rw [hrect, hT, ← hT0]
    unfold CheckCollisionRecs Tank.rect
    rw [hT0, tw, tg, a2w, a2g, hw2, hg2]
    simp only [decide_eq_true_eq]
    push_cast
    refine ⟨⟨by linarith, by linarith⟩, by linarith, by linarith⟩
  have hit1 : ¬ CheckCollisionRecs (shotFired exampleOps g (selfHitInput g)).integrate.rect
      (g.player1.ApplyGravity g.terrain).rect = true := by
    rw [hrect, hPx]
    unfold CheckCollisionRecs Tank.rect
    rw [a1x, hx1, a1w, hw1]
    simp only [decide_eq_true_eq]
    rintro ⟨⟨h, -⟩, -⟩
    norm_num at h
  have hact : (shotFired exampleOps g (selfHitInput g)).isActive = true := rfl
  refine ⟨f1, ?_, ?_⟩
  · rw [f2]
    exact Projectile_Update_isActive_of_hit2 _ _ _ _ _ hit2
  · unfold Placed
    rw [f2, f3, f4, Projectile_Update_player1 _ _ _ _ _ hact, if_neg hit1,
      Projectile_Update_player2 _ _ _ _ _ hact, if_pos hit2]
    obtain ⟨d1, d2⟩ := Projectile_Update_dims (shotFired exampleOps g (selfHitInput g))
      g.terrain (g.player1.ApplyGravity g.terrain) (movedTank exampleOps g (selfHitInput g))
      HandleTerrainImpact
    rw [d1, d2]
    obtain ⟨k1, k2, k3, k4⟩ := TakeDamage_fields (movedTank exampleOps g (selfHitInput g)) 20
    rw [k1, k2, k3, k4, hT, tp, th, tw, tg, a1x, a1h, a1w, a1g, a2x, a2h, a2w, a2g]
    exact ⟨hh1, by rw [hh2], hx1, hx2, hw1, hg1, hw2, hg2, hpw, hph⟩

theorem resolveShot_Placed (g : Game) (h1 h2 : Int) (hp : Placed g h1 h2) :
    Placed (Game.resolveShot g) h1 h2 := by
  unfold Game.resolveShot
  dsimp only
  split_ifs <;> exact hp

theorem Draw_idle (g : Game) (inp : Input) (hR : inp.keyR = false) (hM : inp.keyM = false) :
    Game.Draw g inp = g := by
  unfold Game.Draw
  split <;> simp [hR, hM]

theorem selfHit_frame (g : Game) : Game.frame exampleOps g (selfHitInput g) =
    Game.Update exampleOps g (selfHitInput g) :=
  Draw_idle _ _ rfl rfl

/-- A self-hit of player 1 that leaves both tanks alive passes the turn. -/
theorem selfHit1_frame (g : Game) (h1 h2 : Int) (hr : Ready g true h1 h2)
    (hh1 : 20 < h1) (hh2 : 0 < h2) :
    Ready (Game.frame exampleOps g (selfHitInput g)) false (h1 - 20) h2 := by
  obtain ⟨hs, ha, ht, hp⟩ := hr
  obtain ⟨m1, m2, m3⟩ := selfHit1_playStep g h1 h2 hp ha ht
  rw [if_neg (by omega)] at m3
  have hres := resolveShot_Placed _ _ _ m3
  rw [selfHit_frame, Update_of_play _ _ _ hs]
  refine ⟨?_, ?_, ?_, hres⟩
  all_goals
    unfold Game.resolveShot
    rw [if_pos ⟨m1, m2⟩]
    dsimp only
    rw [if_neg (by rw [m3.1]; omega), if_neg (by rw [m3.2.1]; omega)]
  · show (Game.playStep exampleOps g (selfHitInput g)).currentState = GameState.GAME_PLAY
    rw [playStep_currentState, hs]
  · show (!(Game.playStep exampleOps g (selfHitInput g)).isPlayer1Turn) = false
    rw [playStep_isPlayer1Turn, ht]
    rfl

theorem selfHit2_frame (g : Game) (h1 h2 : Int) (hr : Ready g false h1 h2)
    (hh1 : 0 < h1) (hh2 : 20 < h2) :
    Ready (Game.frame exampleOps g (selfHitInput g)) true h1 (h2 - 20) := by
  obtain ⟨hs, ha, ht, hp⟩ := hr
  obtain ⟨m1, m2, m3⟩ := selfHit2_playStep g h1 h2 hp ha ht
  rw [if_neg (by omega)] at m3
  have hres := resolveShot_Placed _ _ _ m3
  rw [selfHit_frame, Update_of_play _ _ _ hs]
  refine ⟨?_, ?_, ?_, hres⟩
  all_goals
    unfold Game.resolveShot
    rw [if_pos ⟨m1, m2⟩]
    dsimp only
    rw [if_neg (by rw [m3.1]; omega), if_neg (by rw [m3.2.1]; omega)]
  · show (Game.playStep exampleOps g (selfHitInput g)).currentState = GameState.GAME_PLAY
    rw [playStep_currentState, hs]
  · show (!(Game.playStep exampleOps g (selfHitInput g)).isPlayer1Turn) = true
    rw [playStep_isPlayer1Turn, ht]
    rfl

/-- A self-hit of player 1 at health 20 ends the match. -/
theorem selfHit1_final (g : Game) (h2 : Int) (hr : Ready g true 20 h2) :
    (Game.frame exampleOps g (selfHitInput g)).currentState = GameState.GAME_OVER ∧
    Placed (Game.frame exampleOps g (selfHitInput g)) 0 h2 := by
  obtain ⟨hs, ha, ht, hp⟩ := hr
  obtain ⟨m1, m2, m3⟩ := selfHit1_playStep g 20 h2 hp ha ht
  rw [if_neg (by omega)] at m3
  have hres := resolveShot_Placed _ _ _ m3
  rw [selfHit_frame, Update_of_play _ _ _ hs]
  refine ⟨?_, hres⟩
  unfold Game.resolveShot
  rw [if_pos ⟨m1, m2⟩]
  dsimp only
  rw [if_pos (by rw [m3.1]; omega)]

theorem selfHitTrace_zero : Ready (selfHitTrace 0) true 100 100 := by
  refine ⟨rfl, rfl, rfl, rfl, rfl, rfl, rfl, rfl, rfl, rfl, rfl, rfl, rfl⟩

theorem selfHitTrace_reachable (n : Nat) : Reachable exampleOps (selfHitTrace n) := by
  induction n with
  | zero =>
    exact Reachable.step _ _
      (Reachable.init _ _ _ (by rw [List.length_replicate, terrainWidth_eq]; rfl))
  | succ n ih => exact Reachable.step _ _ ih

theorem selfHitTrace_nine :
    (selfHitTrace 9).currentState = GameState.GAME_OVER ∧ Placed (selfHitTrace 9) 0 20 := by
  have r1 := selfHit1_frame _ _ _ selfHitTrace_zero (by norm_num) (by norm_num)
  have r2 := selfHit2_frame _ _ _ r1 (by norm_num) (by norm_num)
  have r3 := selfHit1_frame _ _ _ r2 (by norm_num) (by norm_num)
  have r4 := selfHit2_frame _ _ _ r3 (by norm_num) (by norm_num)
  have r5 := selfHit1_frame _ _ _ r4 (by norm_num) (by norm_num)
  have r6 := selfHit2_frame _ _ _ r5 (by norm_num) (by norm_num)
  have r7 := selfHit1_frame _ _ _ r6 (by norm_num) (by norm_num)
  have r8 := selfHit2_frame _ _ _ r7 (by norm_num) (by norm_num)
  exact selfHit1_final _ _ r8

/-- C9 (the code at the failing input): a reachable state with a tank's health
above 100.  From program start: `Enter`; nine frames in which the player to
move fires at the own tank (each shot starts at the shooter's position,
overlaps the shooter's box in its first step and costs the shooter 20), after
which player 1 is at 0, player 2 at 20 and the match is over; then `R`.  The
restart calls `TakeDamage(-100)` on both tanks: player 1 restarts at 100 and
player 2 at 20 + 100 = 120. -/
theorem C9_restart_health :
    Reachable exampleOps restartedGame ∧
    restartedGame.currentState = GameState.GAME_PLAY ∧
    restartedGame.player1.health = 100 ∧
    restartedGame.player2.health = 120 := by
  obtain ⟨hs, hp⟩ := selfHitTrace_nine
  have hU : Game.Update exampleOps (selfHitTrace 9) pressR = selfHitTrace 9 := by
    unfold Game.Update
    rw [hs]
  have hh := Draw_restart_health (selfHitTrace 9) pressR hs rfl (by rw [hp.1])
    (by rw [hp.2.1]; norm_num)
  refine ⟨Reachable.step _ _ (selfHitTrace_reachable 9), ?_, ?_, ?_⟩
  · show (Game.Draw (Game.Update exampleOps (selfHitTrace 9) pressR) pressR).currentState = _
    rw [hU]
    unfold Game.Draw
    rw [hs]
    rfl
  · show (Game.Draw (Game.Update exampleOps (selfHitTrace 9) pressR) pressR).player1.health = _
    rw [hU, hh.1, hp.1]
    rfl
  · show (Game.Draw (Game.Update exampleOps (selfHitTrace 9) pressR) pressR).player2.health = _
    rw [hU, hh.2, hp.2.1]
    rfl

/-! ## Craters of non-positive radius -/

theorem craterStep_nonpos (p : Vector2) (R : ℚ) (hR : R ≤ 0) (i : Int) (t : List Int) :
    craterStep p R i t = t := by
  unfold craterStep
  have hd : ¬ distanceToImpact p i < R := by
    have := distanceToImpact_nonneg p i
    intro h
    linarith
  split_ifs
  · rfl
  · rfl

theorem craterLoop_nonpos (p : Vector2) (R : ℚ) (hR : R ≤ 0) (lo : Int) (n : Nat)
    (t : List Int) : craterLoop p R lo n t = t := by
  induction n with
  | zero => rfl
  | succ n ih => rw [craterLoop, ih, craterStep_nonpos p R hR]

/-- C12: for every terrain, every impact position and every radius `R ≤ 0`,
`HandleTerrainImpact` returns the terrain array as it was, so every segment's
height is unchanged. -/
theorem C12_nonpositive_radius_noop (terrain : List Int) (impactPos : Vector2) (radius : ℚ)
    (hR : radius ≤ 0) :
    HandleTerrainImpact terrain impactPos radius = terrain ∧
    ∀ i : Nat, (HandleTerrainImpact terrain impactPos radius).getD i 0 = terrain.getD i 0 := by
  have h : HandleTerrainImpact terrain impactPos radius = terrain :=
    craterLoop_nonpos impactPos radius hR _ _ terrain
  exact ⟨h, fun i => by rw [h]⟩

/-- Witness for C12: radius -3 at x = 960 on a flat terrain of height 100 (the
loop runs once, for index 192, and its distance test fails). -/
theorem C12_nonpositive_radius_noop_witness :
    HandleTerrainImpact (flatTerrain 100) ⟨960, 0⟩ (-3) = flatTerrain 100 ∧
    ∀ i : Nat, (HandleTerrainImpact (flatTerrain 100) ⟨960, 0⟩ (-3)).getD i 0 =
      (flatTerrain 100).getD i 0 :=
  C12_nonpositive_radius_noop (flatTerrain 100) ⟨960, 0⟩ (-3) (by norm_num)

/-! ## Terrain collision of the projectile step -/

theorem Vector2_eq_of (a b : Vector2) (hx : a.x = b.x) (hy : a.y = b.y) : a = b := by
  cases a
  cases b
  simp only [Vector2.mk.injEq]
  exact ⟨hx, hy⟩

theorem distanceSq_pos (startPos targetPos : Vector2) (hne : targetPos ≠ startPos) :
    0 < distanceSq startPos targetPos := by
  unfold distanceSq
  by_contra h
  have hx := mul_self_nonneg (targetPos.x - startPos.x)
  have hy := mul_self_nonneg (targetPos.y - startPos.y)
  have h1 : (targetPos.x - startPos.x) * (targetPos.x - startPos.x) = 0 := by linarith
  have h2 : (targetPos.y - startPos.y) * (targetPos.y - startPos.y) = 0 := by linarith
  apply hne
  apply Vector2_eq_of
  · have := mul_self_eq_zero.mp h1
    linarith
  · have := mul_self_eq_zero.mp h2
    linarith

theorem HandleInput_fields (ops : FloatOps) (t : Tank) (terrain : List Int) (keyA keyD : Bool) :
    (t.HandleInput ops terrain keyA keyD).position.x = t.nextX keyA keyD ∧
    (t.HandleInput ops terrain keyA keyD).position.y = t.position.y ∧
    (t.HandleInput ops terrain keyA keyD).currentMovement =
      t.currentMovement + |t.nextX keyA keyD - t.position.x| ∧
    (t.HandleInput ops terrain keyA keyD).health = t.health ∧
    (t.HandleInput ops terrain keyA keyD).width = t.width ∧
    (t.HandleInput ops terrain keyA keyD).height = t.height ∧
    (t.HandleInput ops terrain keyA keyD).speed = t.speed ∧
    (t.HandleInput ops terrain keyA keyD).movementDistance = t.movementDistance := by
  unfold Tank.HandleInput Tank.nextX
  dsimp only
  split_ifs <;> exact ⟨rfl, rfl, rfl, rfl, rfl, rfl, rfl, rfl⟩

/-- What `HandleInput` does to `x` and `currentMovement` of a tank within its
budget invariants. -/
theorem Budgeted_nextX (t : Tank) (keyA keyD : Bool) (h : Budgeted t) :
    (∃ k : Int, t.nextX keyA keyD = 5 * (k : ℚ) ∧ 0 ≤ k ∧ k ≤ 374) ∧
    (∃ m : Int, t.currentMovement + |t.nextX keyA keyD - t.position.x| = 5 * (m : ℚ) ∧
      0 ≤ m ∧ m ≤ 100) ∧
    (t.movementDistance ≤ t.currentMovement → t.nextX keyA keyD = t.position.x) := by
  obtain ⟨hw, -, hs, hmd, ⟨k, hk, hk0, hk1⟩, ⟨m, hm, hm0, hm1⟩⟩ := h
  have hk0q : (0 : ℚ) ≤ (k : ℚ) := by exact_mod_cast hk0
  have hk1q : (k : ℚ) ≤ 374 := by exact_mod_cast hk1
  have hm1q : (m : ℚ) ≤ 100 := by exact_mod_cast hm1
  have hbound : ((SCREEN_WIDTH - t.width : Int) : ℚ) = 1870 := by
    rw [hw]
    unfold SCREEN_WIDTH
    norm_num
  -- the three possible outcomes
  have hstay : t.nextX keyA keyD = t.position.x →
      (∃ k : Int, t.nextX keyA keyD = 5 * (k : ℚ) ∧ 0 ≤ k ∧ k ≤ 374) ∧
      (∃ m : Int, t.currentMovement + |t.nextX keyA keyD - t.position.x| = 5 * (m : ℚ) ∧
        0 ≤ m ∧ m ≤ 100) := by
    intro e
    rw [e]
    exact ⟨⟨k, hk, hk0, hk1⟩, ⟨m, by rw [sub_self, abs_zero, add_zero, hm], hm0, hm1⟩⟩
  have hmove : ∀ k2 : Int, t.currentMovement < t.movementDistance →
      t.nextX keyA keyD = 5 * (k2 : ℚ) → 0 ≤ k2 → k2 ≤ 374 → (k2 = k + 1 ∨ k2 = k - 1) →
      (∃ k : Int, t.nextX keyA keyD = 5 * (k : ℚ) ∧ 0 ≤ k ∧ k ≤ 374) ∧
      (∃ m : Int, t.currentMovement + |t.nextX keyA keyD - t.position.x| = 5 * (m : ℚ) ∧
        0 ≤ m ∧ m ≤ 100) := by
    intro k2 hlt e h0 h1 hor
    have hm99 : m < 100 := by
      rw [hm, hmd] at hlt
      have : (m : ℚ) < 100 := by linarith
      exact_mod_cast this
    refine ⟨⟨k2, e, h0, h1⟩, ⟨m + 1, ?_, by omega, by omega⟩⟩
    rw [e, hk, hm]
    rcases hor with h | h
    · rw [h]
      push_cast
      rw [show (5 * ((k : ℚ) + 1) - 5 * (k : ℚ)) = 5 by ring]
      norm_num
      ring
    · rw [h]
      push_cast
      rw [show (5 * ((k : ℚ) - 1) - 5 * (k : ℚ)) = -5 by ring]
      norm_num
      ring
  have key : t.nextX keyA keyD = t.position.x ∨
      (t.currentMovement < t.movementDistance ∧
        ∃ k2 : Int, t.nextX keyA keyD = 5 * (k2 : ℚ) ∧ 0 ≤ k2 ∧ k2 ≤ 374 ∧
          (k2 = k + 1 ∨ k2 = k - 1)) := by
    unfold Tank.nextX
    rw [hbound, hs, hk]
    dsimp only
    by_cases hA : keyA = true ∧ t.currentMovement < t.movementDistance
    · rw [if_pos hA]
      by_cases hz : k = 0
      · left
        rw [hz]
        norm_num
      · right
        refine ⟨hA.2, k - 1, ?_, by omega, by omega, Or.inr rfl⟩
        have hk1' : (1 : ℚ) ≤ (k : ℚ) := by
          have : (1 : Int) ≤ k := by omega
          exact_mod_cast this
        have e1 : (if 5 * (k : ℚ) - 5 < 0 then (0 : ℚ) else 5 * (k : ℚ) - 5) = 5 * (k : ℚ) - 5 :=
          if_neg (by linarith)
        rw [e1, if_neg (by linarith)]
        push_cast
        ring
    · rw [if_neg hA]
      by_cases hD : keyD = true ∧ t.currentMovement < t.movementDistance
      · rw [if_pos hD]
        by_cases hz : k = 374
        · left
          rw [hz]
          norm_num
        · right
          refine ⟨hD.2, k + 1, ?_, by omega, by omega, Or.inl rfl⟩
          have hk1' : (k : ℚ) ≤ 373 := by
            have : k ≤ 373 := by omega
            exact_mod_cast this
          have e1 : (if 5 * (k : ℚ) + 5 < 0 then (0 : ℚ) else 5 * (k : ℚ) + 5) =
              5 * (k : ℚ) + 5 := if_neg (by linarith)
          rw [e1, if_neg (by linarith)]
          push_cast
          ring
      · rw [if_neg hD]
        left
        have e1 : (if 5 * (k : ℚ) < 0 then (0 : ℚ) else 5 * (k : ℚ)) = 5 * (k : ℚ) :=
          if_neg (by linarith)
        rw [e1, if_neg (by linarith)]
  refine ⟨?_, ?_, ?_⟩
  · rcases key with e | ⟨hlt, k2, e, h0, h1, hor⟩
    · exact (hstay e).1
    · exact (hmove k2 hlt e h0 h1 hor).1
  · rcases key with e | ⟨hlt, k2, e, h0, h1, hor⟩
    · exact (hstay e).2
    · exact (hmove k2 hlt e h0 h1 hor).2
  · intro hge
    rcases key with e | ⟨hlt, -⟩
    · exact e
    · exact absurd hlt (not_lt.mpr hge)

theorem Budgeted_closed (ops : FloatOps) : TankClosed ops Budgeted := by
  refine ⟨?_, ?_, ?_, ?_, ?_⟩
  · intro t terrain h
    unfold Tank.ApplyGravity
    dsimp only
    split_ifs <;> exact h
  · intro t terrain keyA keyD h
    obtain ⟨fx, -, fc, -, fw, fh, fs, fm⟩ := HandleInput_fields ops t terrain keyA keyD
    obtain ⟨n1, n2, -⟩ := Budgeted_nextX t keyA keyD h
    obtain ⟨hw, hh, hs, hmd, -, -⟩ := h
    unfold Budgeted
    rw [fx, fc, fw, fh, fs, fm]
    exact ⟨hw, hh, hs, hmd, n1, n2⟩
  · intro t damage h
    exact h
  · intro t h
    obtain ⟨hw, hh, hs, hmd, hx, -⟩ := h
    exact ⟨hw, hh, hs, hmd, hx, ⟨0, by simp [Tank.ResetMovement], le_refl _, by norm_num⟩⟩
  · intro t h
    obtain ⟨hw, hh, hs, hmd, -, hc⟩ := h
    exact ⟨⟨hw, hh, hs, hmd, ⟨20, by simp [Tank.SetPosition]; norm_num, by norm_num, by norm_num⟩, hc⟩,
      ⟨hw, hh, hs, hmd, ⟨340, by simp [Tank.SetPosition]; norm_num, by norm_num, by norm_num⟩, hc⟩⟩

theorem Projectile_Update_closed (P : Tank → Prop) (p : Projectile) (terrain : List Int)
    (player1 player2 : Tank) (f : List Int → Vector2 → ℚ → List Int)
    (hD : ∀ (t : Tank) (damage : Int), P t → P (t.TakeDamage damage))
    (h1 : P player1) (h2 : P player2) :
    P (p.Update terrain player1 player2 f).player1 ∧
    P (p.Update terrain player1 player2 f).player2 := by
  unfold Projectile.Update
  dsimp only
  split_ifs <;> first | exact ⟨h1, h2⟩ | exact ⟨hD _ _ h1, h2⟩ | exact ⟨h1, hD _ _ h2⟩ |
    exact ⟨hD _ _ h1, hD _ _ h2⟩

theorem playStep_closed (ops : FloatOps) (P : Tank → Prop) (hc : TankClosed ops P)
    (g : Game) (inp : Input) (h1 : P g.player1) (h2 : P g.player2) :
    P (Game.playStep ops g inp).player1 ∧ P (Game.playStep ops g inp).player2 := by
  obtain ⟨hG, hI, hD, -, -⟩ := hc
  unfold Game.playStep Game.HandlePlayerShooting
  dsimp only
  split_ifs <;>
    exact Projectile_Update_closed P _ _ _ _ _ hD
      (by first | exact hI _ _ _ _ (hG _ _ h1) | exact hG _ _ h1)
      (by first | exact hI _ _ _ _ (hG _ _ h2) | exact hG _ _ h2)

theorem resolveShot_closed (P : Tank → Prop) (hR : ∀ t : Tank, P t → P t.ResetMovement)
    (g : Game) (h1 : P g.player1) (h2 : P g.player2) :
    P (Game.resolveShot g).player1 ∧ P (Game.resolveShot g).player2 := by
  unfold Game.resolveShot
  dsimp only
  split_ifs <;> first | exact ⟨h1, h2⟩ | exact ⟨hR _ h1, hR _ h2⟩

theorem Update_closed (ops : FloatOps) (P : Tank → Prop) (hc : TankClosed ops P)
    (g : Game) (inp : Input) (h1 : P g.player1) (h2 : P g.player2) :
    P (Game.Update ops g inp).player1 ∧ P (Game.Update ops g inp).player2 := by
  unfold Game.Update
  split
  · split_ifs <;> exact ⟨h1, h2⟩
  · obtain ⟨m1, m2⟩ := playStep_closed ops P hc g inp h1 h2
    exact resolveShot_closed P hc.2.2.2.1 _ m1 m2
  · exact ⟨h1, h2⟩

theorem Draw_closed (ops : FloatOps) (P : Tank → Prop) (hc : TankClosed ops P)
    (g : Game) (inp : Input) (h1 : P g.player1) (h2 : P g.player2) :
    P (Game.Draw g inp).player1 ∧ P (Game.Draw g inp).player2 := by
  obtain ⟨-, -, hD, -, hS⟩ := hc
  unfold Game.Draw
  split
  · dsimp only
    split_ifs <;> first | exact ⟨h1, h2⟩ | exact ⟨hD _ _ (hS _ h1).1, hD _ _ (hS _ h2).2⟩
  · exact ⟨h1, h2⟩

theorem Reachable_closed (ops : FloatOps) (P : Tank → Prop) (hc : TankClosed ops P)
    (hi1 : P (Tank.init 5 ⟨100, 800⟩)) (hi2 : P (Tank.init 5 ⟨1700, 800⟩))
    (g : Game) (hr : Reachable ops g) : P g.player1 ∧ P g.player2 := by
  induction hr with
  | init rnd terrain0 velocity0 h => exact ⟨hi1, hi2⟩
  | step g inp _ ih =>
    obtain ⟨u1, u2⟩ := Update_closed ops P hc g inp ih.1 ih.2
    exact Draw_closed ops P hc _ inp u1 u2

theorem Budgeted_init1 : Budgeted (Tank.init 5 ⟨100, 800⟩) :=
  ⟨rfl, rfl, rfl, rfl, ⟨20, by simp [Tank.init]; norm_num, by norm_num, by norm_num⟩,
    ⟨0, by simp [Tank.init], le_refl _, by norm_num⟩⟩

theorem Budgeted_init2 : Budgeted (Tank.init 5 ⟨1700, 800⟩) :=
  ⟨rfl, rfl, rfl, rfl, ⟨340, by simp [Tank.init]; norm_num, by norm_num, by norm_num⟩,
    ⟨0, by simp [Tank.init], le_refl _, by norm_num⟩⟩

theorem Reachable_Budgeted (ops : FloatOps) (g : Game) (hr : Reachable ops g) :
    Budgeted g.player1 ∧ Budgeted g.player2 :=
  Reachable_closed ops Budgeted (Budgeted_closed ops) Budgeted_init1 Budgeted_init2 g hr

theorem Budgeted_le (t : Tank) (h : Budgeted t) : t.currentMovement ≤ 500 := by
  obtain ⟨-, -, -, -, -, ⟨m, hm, -, hm1⟩⟩ := h
  have : (m : ℚ) ≤ 100 := by exact_mod_cast hm1
  rw [hm]
  linarith

/-- A tank whose budget is used up is not moved by `HandleInput`. -/
theorem Budgeted_locked (ops : FloatOps) (t : Tank) (terrain : List Int) (keyA keyD : Bool)
    (h : Budgeted t) (hfull : 500 ≤ t.currentMovement) :
    (t.HandleInput ops terrain keyA keyD).position.x = t.position.x ∧
    (t.HandleInput ops terrain keyA keyD).currentMovement = t.currentMovement := by
  obtain ⟨fx, -, fc, -⟩ := HandleInput_fields ops t terrain keyA keyD
  obtain ⟨-, -, hstay⟩ := Budgeted_nextX t keyA keyD h
  have e := hstay (by rw [h.2.2.2.1]; exact hfull)
  rw [fx, fc, e, sub_self, abs_zero, add_zero]
  exact ⟨rfl, rfl⟩

/-- C11: in every reachable game state, for any sequence of inputs, each tank's
`movementDistance` is 500 and its `currentMovement` is at most 500, also after
the `Game::Update` of the next frame; and once `currentMovement` has reached
500, `Tank::HandleInput` changes neither the tank's x nor its
`currentMovement`, whatever keys are held (until `ResetMovement` sets it back
to 0). -/
theorem C11_movement_budget (ops : FloatOps) (g : Game) (hr : Reachable ops g)
    (inp : Input) (terrain : List Int) (keyA keyD : Bool) :
    (g.player1.movementDistance = 500 ∧ g.player2.movementDistance = 500) ∧
    (g.player1.currentMovement ≤ 500 ∧ g.player2.currentMovement ≤ 500) ∧
    ((Game.Update ops g inp).player1.currentMovement ≤ 500 ∧
      (Game.Update ops g inp).player2.currentMovement ≤ 500) ∧
    (500 ≤ g.player1.currentMovement →
      (g.player1.HandleInput ops terrain keyA keyD).position.x = g.player1.position.x ∧
      (g.player1.HandleInput ops terrain keyA keyD).currentMovement =
        g.player1.currentMovement) ∧
    (500 ≤ g.player2.currentMovement →
      (g.player2.HandleInput ops terrain keyA keyD).position.x = g.player2.position.x ∧
      (g.player2.HandleInput ops terrain keyA keyD).currentMovement =
        g.player2.currentMovement) := by
  obtain ⟨b1, b2⟩ := Reachable_Budgeted ops g hr
  obtain ⟨u1, u2⟩ := Update_closed ops Budgeted (Budgeted_closed ops) g inp b1 b2
  refine ⟨⟨b1.2.2.2.1, b2.2.2.2.1⟩, ⟨Budgeted_le _ b1, Budgeted_le _ b2⟩,
    ⟨Budgeted_le _ u1, Budgeted_le _ u2⟩, ?_, ?_⟩
  · intro h
    exact Budgeted_locked ops g.player1 terrain keyA keyD b1 h
  · intro h
    exact Budgeted_locked ops g.player2 terrain keyA keyD b2 h

/-- `Projectile::Update` never activates a projectile. -/
theorem Projectile_Update_isActive_imp (p : Projectile) (terrain : List Int)
    (player1 player2 : Tank) (f : List Int → Vector2 → ℚ → List Int)
    (h : (p.Update terrain player1 player2 f).projectile.isActive = true) :
    p.isActive = true := by
  unfold Projectile.Update at h
  by_cases ha : p.isActive = true
  · exact ha
  · rw [if_neg ha] at h
    exact h

/-- A frame in which no shot was in flight and none is fired leaves the
projectile inactive if it was. -/
theorem playStep_not_fired (ops : FloatOps) (g : Game) (inp : Input)
    (hs : g.projectileActive = g.currentProjectile.isActive)
    (h : (Game.playStep ops g inp).projectileActive = false) :
    (Game.playStep ops g inp).currentProjectile.isActive = false := by
  by_contra hc
  have hc1 : (Game.playStep ops g inp).currentProjectile.isActive = true := by
    simpa using hc
  unfold Game.playStep Game.HandlePlayerShooting at h hc1
  dsimp only at h hc1
  split_ifs at h hc1 with h1 h2 h3 h4
  · have h6 : g.currentProjectile.isActive = true :=
      Projectile_Update_isActive_imp _ _ _ _ _ hc1
    rw [hs, h6] at h1
    exact Bool.noConfusion h1
  · have h6 : g.currentProjectile.isActive = true :=
      Projectile_Update_isActive_imp _ _ _ _ _ hc1
    rw [hs, h6] at h1
    exact Bool.noConfusion h1
  · exact h1 h

theorem resolveShot_Synced (g : Game) (hplay : g.currentState = GameState.GAME_PLAY)
    (h : g.projectileActive = false → g.currentProjectile.isActive = false) :
    Synced (Game.resolveShot g) := by
  unfold Game.resolveShot Synced
  dsimp only
  split_ifs with h1 h2 h3
  · exact ⟨h1.2.symm, fun _ => rfl⟩
  · exact ⟨h1.2.symm, fun _ => rfl⟩
  · exact ⟨h1.2.symm, fun hne => absurd hplay hne⟩
  · refine ⟨?_, fun hne => absurd hplay hne⟩
    by_cases hp : g.projectileActive = true
    · have hi : g.currentProjectile.isActive = true := by
        by_contra hn
        exact h1 ⟨hp, by simpa using hn⟩
      rw [hp, hi]
    · have hp0 : g.projectileActive = false := by simpa using hp
      rw [hp0, h hp0]

theorem Update_Synced (ops : FloatOps) (g : Game) (inp : Input) (hs : Synced g) :
    Synced (Game.Update ops g inp) := by
  unfold Game.Update
  split
  · rename_i hst
    split_ifs
    · exact ⟨hs.1, fun _ => hs.2 (by rw [hst]; decide)⟩
    · exact hs
  · rename_i hst
    apply resolveShot_Synced
    · rw [playStep_currentState, hst]
    · exact playStep_not_fired ops g inp hs.1
  · exact hs

theorem Draw_Synced (g : Game) (inp : Input) (hs : Synced g) : Synced (Game.Draw g inp) := by
  unfold Game.Draw
  split
  · rename_i hst
    have hp : g.projectileActive = false := hs.2 (by rw [hst]; decide)
    have hi : g.currentProjectile.isActive = false := by rw [← hs.1, hp]
    dsimp only
    split_ifs <;> exact ⟨by simp [hp, hi], fun _ => by simp [hp]⟩
  · exact hs

theorem Reachable_Synced (ops : FloatOps) (g : Game) (hr : Reachable ops g) : Synced g := by
  induction hr with
  | init rnd terrain0 velocity0 h => exact ⟨rfl, fun _ => rfl⟩
  | step g inp _ ih => exact Draw_Synced _ inp (Update_Synced ops g inp ih)

/-- C13: in every reachable game state the game's `projectileActive` flag
equals the projectile's `isActive` flag, and it does so again at the end of
the `Game::Update` of the next frame, for every input; therefore whenever the
guard of `Game::HandlePlayerShooting` lets `Shoot` be invoked
(`projectileActive` not set and the mouse button pressed) the projectile is
inactive. -/
theorem C13_no_queueing (ops : FloatOps) (g : Game) (hr : Reachable ops g) (inp : Input) :
    g.projectileActive = g.currentProjectile.isActive ∧
    (Game.Update ops g inp).projectileActive =
      (Game.Update ops g inp).currentProjectile.isActive ∧
    (g.projectileActive = false ∧ inp.mouseLeft = true →
      g.currentProjectile.isActive = false) := by
  have hs := Reachable_Synced ops g hr
  refine ⟨hs.1, (Update_Synced ops g inp hs).1, ?_⟩
  rintro ⟨h, -⟩
  rw [← hs.1, h]

/-- Witness for C13: the match after `Enter` on the menu, with a click in the
next frame. -/
theorem C13_no_queueing_witness :
    (selfHitTrace 0).projectileActive = (selfHitTrace 0).currentProjectile.isActive ∧
    (Game.Update exampleOps (selfHitTrace 0) (selfHitInput (selfHitTrace 0))).projectileActive =
      (Game.Update exampleOps (selfHitTrace 0)
        (selfHitInput (selfHitTrace 0))).currentProjectile.isActive ∧
    ((selfHitTrace 0).projectileActive = false ∧
        (selfHitInput (selfHitTrace 0)).mouseLeft = true →
      (selfHitTrace 0).currentProjectile.isActive = false) :=
  C13_no_queueing exampleOps (selfHitTrace 0) (selfHitTrace_reachable 0)
    (selfHitInput (selfHitTrace 0))

theorem ApplyGravity_budget (t : Tank) (terrain : List Int) :
    (t.ApplyGravity terrain).currentMovement = t.currentMovement ∧
    (t.ApplyGravity terrain).movementDistance = t.movementDistance ∧
    (t.ApplyGravity terrain).speed = t.speed := by
  unfold Tank.ApplyGravity
  dsimp only
  split_ifs <;> exact ⟨rfl, rfl, rfl⟩

/-- A `GAME_PLAY` frame of player 1's turn with no shot in flight and no mouse
click: only the tanks change. -/
theorem frame_quiet (ops : FloatOps) (g : Game) (inp : Input)
    (hs : g.currentState = GameState.GAME_PLAY) (hpa : g.projectileActive = false)
    (hi : g.currentProjectile.isActive = false) (ht : g.isPlayer1Turn = true)
    (hm : inp.mouseLeft = false) (hR : inp.keyR = false) (hM : inp.keyM = false) :
    Game.frame ops g inp =
      { g with player1 := (g.player1.ApplyGravity g.terrain).HandleInput ops g.terrain
                 inp.keyA inp.keyD,
               player2 := g.player2.ApplyGravity g.terrain } := by
  unfold Game.frame
  rw [Draw_idle _ _ hR hM, Update_of_play _ _ _ hs]
  unfold Game.playStep Game.HandlePlayerShooting Game.resolveShot Projectile.Update
  simp [hpa, ht, hm, hi]

theorem moveTrace_reachable (n : Nat) : Reachable exampleOps (moveTrace n) := by
  induction n with
  | zero => exact selfHitTrace_reachable 0
  | succ n ih => exact Reachable.step _ _ ih

/-- While `D` is held in player 1's turn, each of the first 100 frames moves
tank 1 by its speed 5 and adds 5 to its `currentMovement`. -/
theorem moveTrace_inv (n : Nat) (hn : n ≤ 100) :
    (moveTrace n).currentState = GameState.GAME_PLAY ∧
    (moveTrace n).projectileActive = false ∧
    (moveTrace n).isPlayer1Turn = true ∧
    (moveTrace n).player1.position.x = 100 + 5 * (n : ℚ) ∧
    (moveTrace n).player1.currentMovement = 5 * (n : ℚ) := by
  induction n with
  | zero =>
    refine ⟨rfl, rfl, rfl, ?_, ?_⟩
    · show (100 : ℚ) = 100 + 5 * ((0 : Nat) : ℚ)
      norm_num
    · show (0 : ℚ) = 5 * ((0 : Nat) : ℚ)
      norm_num
  | succ n ih =>
    obtain ⟨hs, hpa, ht, hx, hc⟩ := ih (by omega)
    have hr := moveTrace_reachable n
    have hsync := Reachable_Synced exampleOps _ hr
    have hi : (moveTrace n).currentProjectile.isActive = false := by rw [← hsync.1, hpa]
    obtain ⟨b1, -⟩ := Reachable_Budgeted exampleOps _ hr
    have hf : moveTrace (n + 1) = _ :=
      frame_quiet exampleOps (moveTrace n) holdD hs hpa hi ht rfl rfl rfl
    rw [hf]
    refine ⟨hs, hpa, ht, ?_, ?_⟩
    all_goals
      obtain ⟨fx, -, fc, -⟩ := HandleInput_fields exampleOps
        ((moveTrace n).player1.ApplyGravity (moveTrace n).terrain) (moveTrace n).terrain
        holdD.keyA holdD.keyD
      obtain ⟨ax, -, aw, -⟩ := ApplyGravity_fields (moveTrace n).player1 (moveTrace n).terrain
      obtain ⟨ac, am, as⟩ := ApplyGravity_budget (moveTrace n).player1 (moveTrace n).terrain
      have hnq : (n : ℚ) ≤ 99 := by
        have : n ≤ 99 := by omega
        exact_mod_cast this
      have hn0 : (0 : ℚ) ≤ (n : ℚ) := Nat.cast_nonneg n
      have hnext : ((moveTrace n).player1.ApplyGravity (moveTrace n).terrain).nextX
          holdD.keyA holdD.keyD = 100 + 5 * (n : ℚ) + 5 := by
        unfold Tank.nextX
        rw [ax, ac, am, as, aw, hx, hc, b1.1, b1.2.2.1, b1.2.2.2.1]
        have hA : ¬ (holdD.keyA = true ∧ 5 * (n : ℚ) < 500) := fun h => Bool.noConfusion h.1
        have hD : holdD.keyD = true ∧ 5 * (n : ℚ) < 500 := ⟨rfl, by linarith⟩
        dsimp only
        rw [if_neg hA, if_pos hD]
        have e1 : (if 100 + 5 * (n : ℚ) + 5 < 0 then (0 : ℚ) else 100 + 5 * (n : ℚ) + 5) =
            100 + 5 * (n : ℚ) + 5 := if_neg (by linarith)
        rw [e1, if_neg]
        unfold SCREEN_WIDTH
        push_cast
        linarith
    · show (((moveTrace n).player1.ApplyGravity (moveTrace n).terrain).HandleInput exampleOps
        (moveTrace n).terrain holdD.keyA holdD.keyD).position.x = _
      rw [fx, hnext]
      push_cast
      ring
    · show (((moveTrace n).player1.ApplyGravity (moveTrace n).terrain).HandleInput exampleOps
        (moveTrace n).terrain holdD.keyA holdD.keyD).currentMovement = _
      rw [fc, hnext, ac, ax, hx, hc]
      have : (100 + 5 * (n : ℚ) + 5 - (100 + 5 * (n : ℚ))) = 5 := by ring
      rw [this]
      push_cast
      norm_num
      ring

/-- After 100 frames with `D` held, tank 1 stands at x = 600 with its budget of
500 used up. -/
theorem moveTrace_full : (moveTrace 100).player1.currentMovement = 500 ∧
    (moveTrace 100).player1.position.x = 600 := by
  obtain ⟨-, -, -, hx, hc⟩ := moveTrace_inv 100 (le_refl _)
  rw [hx, hc]
  norm_num

/-- Witness for C11: from program start, `Enter` and then 100 frames with `D`
held.  Tank 1 has moved from x = 100 to x = 600 and its `currentMovement` has
reached 500; in this reachable state `HandleInput` with `D` still held, and
likewise with `A` held, changes neither x nor `currentMovement`. -/
theorem C11_movement_budget_witness :
    Reachable exampleOps (moveTrace 100) ∧
    (moveTrace 100).player1.position.x = 600 ∧
    500 ≤ (moveTrace 100).player1.currentMovement ∧
    (((moveTrace 100).player1.HandleInput exampleOps (moveTrace 100).terrain false
        true).position.x = (moveTrace 100).player1.position.x ∧
      ((moveTrace 100).player1.HandleInput exampleOps (moveTrace 100).terrain false
        true).currentMovement = (moveTrace 100).player1.currentMovement) ∧
    (((moveTrace 100).player1.HandleInput exampleOps (moveTrace 100).terrain true
        false).position.x = (moveTrace 100).player1.position.x ∧
      ((moveTrace 100).player1.HandleInput exampleOps (moveTrace 100).terrain true
        false).currentMovement = (moveTrace 100).player1.currentMovement) :=
  have h500 : 500 ≤ (moveTrace 100).player1.currentMovement := by
    rw [moveTrace_full.1]
  ⟨moveTrace_reachable 100, moveTrace_full.2, h500,
    (C11_movement_budget exampleOps (moveTrace 100) (moveTrace_reachable 100) holdD
      (moveTrace 100).terrain false true).2.2.2.1 h500,
    (C11_movement_budget exampleOps (moveTrace 100) (moveTrace_reachable 100) holdD
      (moveTrace 100).terrain true false).2.2.2.1 h500⟩

theorem playStep_projectile_dims (ops : FloatOps) (g : Game) (inp : Input) :
    (Game.playStep ops g inp).currentProjectile.width = g.currentProjectile.width ∧
    (Game.playStep ops g inp).currentProjectile.height = g.currentProjectile.height := by
  unfold Game.playStep Game.HandlePlayerShooting
  dsimp only
  split_ifs <;> exact Projectile_Update_dims _ _ _ _ _

theorem resolveShot_fields (g : Game) :
    (Game.resolveShot g).currentProjectile = g.currentProjectile ∧
    (Game.resolveShot g).player1.health = g.player1.health ∧
    (Game.resolveShot g).player2.health = g.player2.health := by
  unfold Game.resolveShot
  dsimp only
  split_ifs <;> exact ⟨rfl, rfl, rfl⟩

theorem frame_projectile_dims (ops : FloatOps) (g : Game) (inp : Input) :
    (Game.frame ops g inp).currentProjectile.width = g.currentProjectile.width ∧
    (Game.frame ops g inp).currentProjectile.height = g.currentProjectile.height := by
  have hU : (Game.Update ops g inp).currentProjectile.width = g.currentProjectile.width ∧
      (Game.Update ops g inp).currentProjectile.height = g.currentProjectile.height := by
    unfold Game.Update
    split
    · split_ifs <;> exact ⟨rfl, rfl⟩
    · rw [(resolveShot_fields _).1]
      exact playStep_projectile_dims ops g inp
    · exact ⟨rfl, rfl⟩
  have hD : ∀ h : Game, (Game.Draw h inp).currentProjectile = h.currentProjectile := by
    intro h
    unfold Game.Draw
    split
    · dsimp only
      split_ifs <;> rfl
    · rfl
  unfold Game.frame
  rw [hD]
  exact hU

theorem Reachable_projectile_dims (ops : FloatOps) (g : Game) (hr : Reachable ops g) :
    g.currentProjectile.width = 10 ∧ g.currentProjectile.height = 10 := by
  induction hr with
  | init rnd terrain0 velocity0 h => exact ⟨rfl, rfl⟩
  | step g inp _ ih =>
    obtain ⟨h1, h2⟩ := frame_projectile_dims ops g inp
    rw [h1, h2]
    exact ih

/-- The overlap test of a 10 x 10 projectile box against a 50 x 30 tank box whose
corner is the point the projectile started its step from. -/
theorem selfHit_overlap (q : Projectile) (t : Tank) (dx dy : ℚ)
    (hqw : q.width = 10) (hqh : q.height = 10) (htw : t.width = 50) (hth : t.height = 30)
    (hx : q.position.x = t.position.x + dx) (hy : q.position.y = t.position.y + dy)
    (hdx : -5 < dx ∧ dx < 55) (hdy : -5 < dy ∧ dy < 35) :
    CheckCollisionRecs q.rect t.rect = true := by
  unfold CheckCollisionRecs Projectile.rect Tank.rect
  rw [hqw, hqh, htw, hth, hx, hy]
  simp only [decide_eq_true_eq]
  push_cast
  norm_num
  refine ⟨⟨by linarith [hdx.2], by linarith [hdx.1]⟩, by linarith [hdy.2], by linarith [hdy.1]⟩

theorem movedTank_fields (ops : FloatOps) (g : Game) (inp : Input)
    (b1 : Budgeted g.player1) (b2 : Budgeted g.player2) :
    (movedTank ops g inp).width = 50 ∧ (movedTank ops g inp).height = 30 ∧
    (g.isPlayer1Turn = true → (movedTank ops g inp).health = g.player1.health) ∧
    (g.isPlayer1Turn = false → (movedTank ops g inp).health = g.player2.health) := by
  unfold movedTank
  by_cases ht : g.isPlayer1Turn = true
  · rw [if_pos ht]
    obtain ⟨-, -, -, fh, fw, fg, -⟩ :=
      HandleInput_fields ops (g.player1.ApplyGravity g.terrain) g.terrain inp.keyA inp.keyD
    obtain ⟨-, ah, aw, ag⟩ := ApplyGravity_fields g.player1 g.terrain
    rw [fh, fw, fg, ah, aw, ag]
    exact ⟨b1.1, b1.2.1, fun _ => rfl, fun h => absurd ht (by rw [h]; exact Bool.false_ne_true)⟩
  · rw [if_neg ht]
    obtain ⟨-, -, -, fh, fw, fg, -⟩ :=
      HandleInput_fields ops (g.player2.ApplyGravity g.terrain) g.terrain inp.keyA inp.keyD
    obtain ⟨-, ah, aw, ag⟩ := ApplyGravity_fields g.player2 g.terrain
    rw [fh, fw, fg, ah, aw, ag]
    exact ⟨b2.1, b2.2.1, fun h => absurd h ht, fun _ => rfl⟩

theorem TakeDamage_health_max (t : Tank) (damage : Int) :
    (t.TakeDamage damage).health = max 0 (t.health - damage) := by
  unfold Tank.TakeDamage
  dsimp only
  split_ifs with h
  · rw [max_eq_left (le_of_lt h)]
  · rw [max_eq_right (not_lt.mp h)]

theorem roundHalfEven_err (q : ℚ) : |((roundHalfEven q : Int) : ℚ) - q| ≤ 1 / 2 := by
  have h1 := Int.floor_le q
  have h2 := Int.lt_floor_add_one q
  unfold roundHalfEven
  rw [abs_le]
  split_ifs with a b c
  · constructor <;> linarith
  · push_cast
    constructor <;> linarith
  · have : q - (⌊q⌋ : ℚ) = 1 / 2 := le_antisymm (not_lt.mp b) (not_lt.mp a)
    constructor <;> linarith
  · have : q - (⌊q⌋ : ℚ) = 1 / 2 := le_antisymm (not_lt.mp b) (not_lt.mp a)
    push_cast
    constructor <;> linarith

/-- Below 2048 in absolute value, storing a value in a `float` changes it by at
most 2^-14. -/
theorem f32_err (q : ℚ) (hq : |q| < 2048) : |f32 q - q| ≤ 1 / 16384 := by
  have h2n : (1 : Nat) < 2 := by norm_num
  have hlog : Int.log 2 |q| ≤ 10 := by
    rcases (abs_nonneg q).eq_or_lt with h0 | hpos
    · rw [← h0, Int.log_of_right_le_zero 2 (le_refl (0 : ℚ))]
      norm_num
    · have h11 : |q| < ((2 : Nat) : ℚ) ^ (11 : Int) := by
        norm_num
        exact hq
      have := (Int.lt_zpow_iff_log_lt h2n hpos).mp h11
      omega
  unfold f32
  set e : Int := max (Int.log 2 |q|) (-126) with he
  have he10 : e ≤ 10 := max_le hlog (by norm_num)
  have hu0 : (0 : ℚ) < (2 : ℚ) ^ (e - 23) := zpow_pos (by norm_num) _
  have hu1 : (2 : ℚ) ^ (e - 23) ≤ (2 : ℚ) ^ (-13 : Int) :=
    zpow_le_zpow_right₀ (by norm_num) (by omega)
  have hu2 : (2 : ℚ) ^ (-13 : Int) = 1 / 8192 := by norm_num
  have hr := roundHalfEven_err (q / (2 : ℚ) ^ (e - 23))
  have hk : ((roundHalfEven (q / (2 : ℚ) ^ (e - 23)) : Int) : ℚ) * (2 : ℚ) ^ (e - 23) - q =
      (((roundHalfEven (q / (2 : ℚ) ^ (e - 23)) : Int) : ℚ) - q / (2 : ℚ) ^ (e - 23)) *
        (2 : ℚ) ^ (e - 23) := by
    field_simp
  show |((roundHalfEven (q / (2 : ℚ) ^ (e - 23)) : Int) : ℚ) * (2 : ℚ) ^ (e - 23) - q| ≤ _
  rw [hk, abs_mul, abs_of_pos hu0]
  calc |((roundHalfEven (q / (2 : ℚ) ^ (e - 23)) : Int) : ℚ) - q / (2 : ℚ) ^ (e - 23)| *
        (2 : ℚ) ^ (e - 23)
      ≤ 1 / 2 * (2 : ℚ) ^ (e - 23) := mul_le_mul_of_nonneg_right hr hu0.le
    _ ≤ 1 / 2 * (1 / 8192) := by
        rw [← hu2]
        exact mul_le_mul_of_nonneg_left hu1 (by norm_num)
    _ = 1 / 16384 := by norm_num

/-- The overlap test of the self-hit with the three sums of the first step
rounded to binary32: inside the margin 0.01 it still succeeds. -/
theorem selfHit_overlap_f32 (p : Projectile) (t : Tank)
    (hpw : p.width = 10) (hph : p.height = 10) (htw : t.width = 50) (hth : t.height = 30)
    (hpos : p.position = t.position)
    (hx : 0 ≤ t.position.x ∧ t.position.x ≤ 1870)
    (hy : 0 ≤ t.position.y ∧ t.position.y ≤ 1200)
    (hdx : -499 / 100 ≤ p.velocity.x ∧ p.velocity.x ≤ 5499 / 100)
    (hdy : -499 / 100 ≤ p.velocity.y + p.gravity ∧ p.velocity.y + p.gravity ≤ 3499 / 100) :
    CheckCollisionRecs p.integrateF32.rect t.rect = true := by
  have ev := f32_err (p.velocity.y + p.gravity)
    (by rw [abs_lt]; constructor <;> linarith [hdy.1, hdy.2])
  rw [abs_le] at ev
  have ex := f32_err (p.position.x + p.velocity.x)
    (by rw [hpos, abs_lt]; constructor <;> linarith [hx.1, hx.2, hdx.1, hdx.2])
  rw [abs_le] at ex
  have ey := f32_err (p.position.y + f32 (p.velocity.y + p.gravity))
    (by rw [hpos, abs_lt]; constructor <;> linarith [hy.1, hy.2, hdy.1, hdy.2, ev.1, ev.2])
  rw [abs_le] at ey
  rw [hpos] at ex ey
  unfold CheckCollisionRecs Projectile.rect Tank.rect
  have e1 : p.integrateF32.position.x = f32 (t.position.x + p.velocity.x) := by
    show f32 (p.position.x + p.velocity.x) = _
    rw [hpos]
  have e2 : p.integrateF32.position.y =
      f32 (t.position.y + f32 (p.velocity.y + p.gravity)) := by
    show f32 (p.position.y + f32 (p.velocity.y + p.gravity)) = _
    rw [hpos]
  have e3 : p.integrateF32.width = 10 := hpw
  have e4 : p.integrateF32.height = 10 := hph
  rw [e1, e2, e3, e4, htw, hth]
  simp only [decide_eq_true_eq]
  push_cast
  norm_num
  refine ⟨⟨?_, ?_⟩, ?_, ?_⟩ <;>
    linarith [ex.1, ex.2, ey.1, ey.2, ev.1, ev.2, hdx.1, hdx.2, hdy.1, hdy.2]


theorem movedTank_Budgeted (ops : FloatOps) (g : Game) (inp : Input)
    (b1 : Budgeted g.player1) (b2 : Budgeted g.player2) : Budgeted (movedTank ops g inp) := by
  obtain ⟨hG, hI, -⟩ := Budgeted_closed ops
  unfold movedTank
  split_ifs
  · exact hI _ _ _ _ (hG _ _ b1)
  · exact hI _ _ _ _ (hG _ _ b2)

/-- C16 (amended): in every reachable `GAME_PLAY` state with no shot in flight,
a frame in which the mouse button is pressed at a point other than the position
of the tank whose turn it is fires a shot from that position (the squared
distance handed to `sqrt` is positive); if the first-step displacement
`(dx, dy) = (velocity.x, velocity.y + gravity)` of that shot satisfies
`-4.99 ≤ dx ≤ 54.99` and `-4.99 ≤ dy ≤ 34.99`, the projectile's 10 x 10 box
overlaps the shooter's 50 x 30 box, also when the three sums of the step are
rounded to binary32 as the program stores them (for a tank with y in
`[0, 1200]`); the shooter's health ends the frame at `max(0, health - 20)`, and
at the end of the same `Game::Update` the projectile is inactive and
`projectileActive` is cleared again (the shot has resolved).  The margin 0.01
inside the thresholds -5, 55 and 35 is far above the rounding errors of the
program's `float` arithmetic, which decide the overlap test at the thresholds
themselves. -/
theorem C16_self_hit_on_firing (ops : FloatOps) (g : Game) (inp : Input) (hr : Reachable ops g)
    (hplay : g.currentState = GameState.GAME_PLAY) (hpa : g.projectileActive = false)
    (hm : inp.mouseLeft = true)
    (hne : inp.mousePos ≠ (movedTank ops g inp).position)
    (hdx : -499 / 100 ≤ (shotFired ops g inp).velocity.x ∧
      (shotFired ops g inp).velocity.x ≤ 5499 / 100)
    (hdy : -499 / 100 ≤ (shotFired ops g inp).velocity.y + (shotFired ops g inp).gravity ∧
      (shotFired ops g inp).velocity.y + (shotFired ops g inp).gravity ≤ 3499 / 100) :
    0 < distanceSq (movedTank ops g inp).position inp.mousePos ∧
    CheckCollisionRecs (shotFired ops g inp).integrate.rect (movedTank ops g inp).rect = true ∧
    (0 ≤ (movedTank ops g inp).position.y ∧ (movedTank ops g inp).position.y ≤ 1200 →
      CheckCollisionRecs (shotFired ops g inp).integrateF32.rect
        (movedTank ops g inp).rect = true) ∧
    (g.isPlayer1Turn = true →
      (Game.Update ops g inp).player1.health = max 0 (g.player1.health - 20)) ∧
    (g.isPlayer1Turn = false →
      (Game.Update ops g inp).player2.health = max 0 (g.player2.health - 20)) ∧
    (Game.Update ops g inp).currentProjectile.isActive = false ∧
    (Game.Update ops g inp).projectileActive = false := by
  refine ⟨distanceSq_pos _ _ hne, ?_⟩
  obtain ⟨b1, b2⟩ := Reachable_Budgeted ops g hr
  obtain ⟨pw, ph⟩ := Reachable_projectile_dims ops g hr
  obtain ⟨tw, th, hh1, hh2⟩ := movedTank_fields ops g inp b1 b2
  have hit : CheckCollisionRecs (shotFired ops g inp).integrate.rect
      (movedTank ops g inp).rect = true :=
    selfHit_overlap (shotFired ops g inp).integrate (movedTank ops g inp)
      (shotFired ops g inp).velocity.x
      ((shotFired ops g inp).velocity.y + (shotFired ops g inp).gravity)
      pw ph tw th rfl rfl ⟨by linarith [hdx.1], by linarith [hdx.2]⟩
      ⟨by linarith [hdy.1], by linarith [hdy.2]⟩
  have hit32 : 0 ≤ (movedTank ops g inp).position.y ∧ (movedTank ops g inp).position.y ≤ 1200 →
      CheckCollisionRecs (shotFired ops g inp).integrateF32.rect
        (movedTank ops g inp).rect = true := by
    intro hy
    obtain ⟨-, -, -, -, ⟨k, hk, hk0, hk1⟩, -⟩ := movedTank_Budgeted ops g inp b1 b2
    have hk0q : (0 : ℚ) ≤ (k : ℚ) := by exact_mod_cast hk0
    have hk1q : (k : ℚ) ≤ 374 := by exact_mod_cast hk1
    exact selfHit_overlap_f32 (shotFired ops g inp) (movedTank ops g inp) pw ph tw th rfl
      ⟨by rw [hk]; linarith, by rw [hk]; linarith⟩ hy hdx hdy
  have hact : (shotFired ops g inp).isActive = true := rfl
  obtain ⟨rc, rh1, rh2⟩ := resolveShot_fields (Game.playStep ops g inp)
  rw [Update_of_play ops g inp hplay, rc, rh1, rh2]
  have hpaF : ∀ m : Game, m.projectileActive = true → m.currentProjectile.isActive = false →
      (Game.resolveShot m).projectileActive = false := by
    intro m h1 h2
    unfold Game.resolveShot
    rw [if_pos ⟨h1, h2⟩]
    dsimp only
    split_ifs <;> rfl
  by_cases ht : g.isPlayer1Turn = true
  · obtain ⟨f1, f2, f3, -⟩ := playStep_fire1 ops g inp hpa ht hm
    have hi : (Game.playStep ops g inp).currentProjectile.isActive = false := by
      rw [f2]
      exact Projectile_Update_isActive_of_hit1 _ _ _ _ _ hit
    refine ⟨hit, hit32, ?_, fun h => absurd ht (by rw [h]; exact Bool.false_ne_true), hi,
      hpaF _ f1 hi⟩
    intro _
    rw [f3, Projectile_Update_player1 _ _ _ _ _ hact, if_pos hit, TakeDamage_health_max,
      hh1 ht]
  · have ht0 : g.isPlayer1Turn = false := by simpa using ht
    obtain ⟨f1, f2, -, f4⟩ := playStep_fire2 ops g inp hpa ht0 hm
    have hi : (Game.playStep ops g inp).currentProjectile.isActive = false := by
      rw [f2]
      exact Projectile_Update_isActive_of_hit2 _ _ _ _ _ hit
    refine ⟨hit, hit32, fun h => absurd h ht, ?_, hi, hpaF _ f1 hi⟩
    intro _
    rw [f4, Projectile_Update_player2 _ _ _ _ _ hact, if_pos hit, TakeDamage_health_max,
      hh2 ht0]

/-- Evaluation of `f32` from the binade of `q` and the rounded significand. -/
theorem f32_eq (q : ℚ) (e n : Int) (he : -126 ≤ e) (h1 : (2 : ℚ) ^ e ≤ |q|)
    (h2 : |q| < (2 : ℚ) ^ (e + 1)) (hn : roundHalfEven (q / (2 : ℚ) ^ (e - 23)) = n) :
    f32 q = (n : ℚ) * (2 : ℚ) ^ (e - 23) := by
  have hpos : 0 < |q| := lt_of_lt_of_le (zpow_pos (by norm_num) e) h1
  have h2n : (1 : Nat) < 2 := by norm_num
  have hlog : Int.log 2 |q| = e := by
    apply le_antisymm
    · have := (Int.lt_zpow_iff_log_lt h2n hpos).mp (by exact_mod_cast h2)
      omega
    · exact (Int.zpow_le_iff_le_log h2n hpos).mp (by exact_mod_cast h1)
  unfold f32
  simp only [hlog, max_eq_left he, hn]

theorem roundHalfEven_low (q : ℚ) (n : Int) (h1 : (n : ℚ) ≤ q) (h2 : q < (n : ℚ) + 1 / 2) :
    roundHalfEven q = n := by
  have hf : ⌊q⌋ = n := by
    rw [Int.floor_eq_iff]
    exact ⟨h1, by linarith⟩
  unfold roundHalfEven
  rw [hf, if_pos (by linarith)]

/-- The three rounded sums of the first step of `thresholdShot`. -/
theorem thresholdShot_step :
    thresholdShot.integrateF32.velocity = ⟨-10485747 / 2097152, -2283869 / 1048576⟩ ∧
    thresholdShot.integrateF32.position = ⟨255, 9017933 / 8192⟩ := by
  have hv : f32 (-10393767 / 4194304 + 5033165 / 16777216) = -2283869 / 1048576 := by
    have h := f32_eq (-10393767 / 4194304 + 5033165 / 16777216) 1 (-9135476) (by norm_num)
      (by norm_num [abs_of_neg]) (by norm_num [abs_of_neg])
      (roundHalfEven_low _ _ (by norm_num) (by norm_num))
    rw [h]
    norm_num
  have hx : f32 (260 + -10485747 / 2097152) = 255 := by
    have h := f32_eq (260 + -10485747 / 2097152) 7 16711680 (by norm_num)
      (by norm_num [abs_of_pos]) (by norm_num [abs_of_pos])
      (roundHalfEven_low _ _ (by norm_num) (by norm_num))
    rw [h]
    norm_num
  have hy : f32 (1103 + -2283869 / 1048576) = 9017933 / 8192 := by
    have h := f32_eq (1103 + -2283869 / 1048576) 10 9017933 (by norm_num)
      (by norm_num [abs_of_pos]) (by norm_num [abs_of_pos])
      (roundHalfEven_low _ _ (by norm_num) (by norm_num))
    rw [h]
    norm_num
  have e1 : thresholdShot.integrateF32.velocity =
      ⟨-10485747 / 2097152, f32 (-10393767 / 4194304 + 5033165 / 16777216)⟩ := rfl
  have e2 : thresholdShot.integrateF32.position =
      ⟨f32 (260 + -10485747 / 2097152),
        f32 (1103 + f32 (-10393767 / 4194304 + 5033165 / 16777216))⟩ := rfl
  rw [e1, e2, hv, hx, hy]
  exact ⟨rfl, rfl⟩

/-- Counterexample to C16 as stated: the tank at (260, 1103) fires at a click
on (32, 990).  The shot starts at the tank's position with the velocity and
gravity of `thresholdShot`; its first-step displacement
`(dx, dy) = (-4.9999938, -2.1780672)` satisfies `-5 < dx < 55` and
`-5 < dy < 35`.  The program stores the sum `260 + dx = 255.0000062` in a
`float`, which holds 255; the projectile's box then spans x from 250 to 260,
the tank's box starts at x = 260, and the strict overlap test is false: no
self-hit.  (In exact arithmetic the box would reach to 260.0000062 and
overlap.) -/
theorem C16_counterexample :
    thresholdShot.position = thresholdTank.position ∧
    (thresholdShot.width = 10 ∧ thresholdShot.height = 10 ∧
      thresholdTank.width = 50 ∧ thresholdTank.height = 30) ∧
    (-5 < thresholdShot.velocity.x ∧ thresholdShot.velocity.x < 55) ∧
    (-5 < thresholdShot.velocity.y + thresholdShot.gravity ∧
      thresholdShot.velocity.y + thresholdShot.gravity < 35) ∧
    thresholdShot.integrateF32.position = ⟨255, 9017933 / 8192⟩ ∧
    CheckCollisionRecs thresholdShot.integrateF32.rect thresholdTank.rect = false ∧
    CheckCollisionRecs thresholdShot.integrate.rect thresholdTank.rect = true := by
  have hpos : thresholdShot.position = thresholdTank.position := by
    apply Vector2_eq_of
    · rfl
    · show (1103 : ℚ) = ((SCREEN_HEIGHT - 67 - 30 : Int) : ℚ)
      unfold SCREEN_HEIGHT
      norm_num
  have hvx : thresholdShot.velocity.x = -10485747 / 2097152 := rfl
  have hvy : thresholdShot.velocity.y + thresholdShot.gravity =
      -10393767 / 4194304 + 5033165 / 16777216 := rfl
  refine ⟨hpos, ⟨rfl, rfl, rfl, rfl⟩, by rw [hvx]; norm_num, by rw [hvy]; norm_num,
    thresholdShot_step.2, ?_, ?_⟩
  · have hr : thresholdShot.integrateF32.rect =
        ⟨thresholdShot.integrateF32.position.x - 5,
          thresholdShot.integrateF32.position.y - 5, 10, 10⟩ := by
      unfold Projectile.rect
      norm_num [Projectile.integrateF32, thresholdShot]
    have ht : thresholdTank.rect = ⟨260, thresholdTank.position.y, 50, 30⟩ := by
      unfold Tank.rect
      norm_num [thresholdTank, standingTank, Tank.init]
    rw [hr, ht, thresholdShot_step.2]
    unfold CheckCollisionRecs
    rw [decide_eq_false_iff_not]
    rintro ⟨⟨-, h⟩, -⟩
    norm_num at h
  · exact selfHit_overlap thresholdShot.integrate thresholdTank
      thresholdShot.velocity.x (thresholdShot.velocity.y + thresholdShot.gravity)
      rfl rfl rfl rfl
      (by rw [← hpos]; rfl) (by rw [← hpos]; rfl)
      (by rw [hvx]; norm_num) (by rw [hvy]; norm_num)

theorem selfShot_velocity (p : Projectile) (P : Vector2) :
    (p.Shoot exampleOps P ⟨P.x + 3, P.y + 4⟩
      (RemapValue (exampleOps.sqrt ((P.x + 3 - P.x) ^ 2 + (P.y + 4 - P.y) ^ 2)) 0 500 1 10)
      (3 / 10)).velocity = ⟨327 / 500, 109 / 125⟩ := by
  have e1 : (P.x + 3 - P.x) ^ 2 + (P.y + 4 - P.y) ^ 2 = 25 := by ring
  have e2 : (P.x + 3 - P.x) * (P.x + 3 - P.x) + (P.y + 4 - P.y) * (P.y + 4 - P.y) = 25 := by
    ring
  rw [e1]
  simp only [Projectile.Shoot, e2, exampleOps_sqrt_25, RemapValue]
  norm_num

/-- The shot of `selfHitInput`: velocity (0.654, 0.872), gravity 0.3. -/
theorem selfHit_velocity (g : Game) :
    (shotFired exampleOps g (selfHitInput g)).velocity = ⟨327 / 500, 109 / 125⟩ ∧
    (shotFired exampleOps g (selfHitInput g)).gravity = 3 / 10 :=
  ⟨selfShot_velocity g.currentProjectile (movedTank exampleOps g noInput).position, rfl⟩

theorem selfHitInput_off (g : Game) :
    (selfHitInput g).mousePos ≠ (movedTank exampleOps g (selfHitInput g)).position := by
  intro h
  have hx := congrArg Vector2.x h
  have e : (selfHitInput g).mousePos.x =
      (movedTank exampleOps g (selfHitInput g)).position.x + 3 := rfl
  rw [e] at hx
  linarith

/-- The heights `Game::Terrain` generates are in `[0, MAX_HEIGHT)`. -/
theorem Terrain_range (rnd : Nat → Nat) (terrain0 : List Int) (hl : terrain0.length = 384)
    (i : Nat) (hi : (i : Int) < TERRAIN_WIDTH) :
    0 ≤ (Terrain rnd terrain0).getD i 0 ∧ (Terrain rnd terrain0).getD i 0 < MAX_HEIGHT := by
  rw [terrainWidth_eq] at hi
  have hw : (TERRAIN_WIDTH - 1).toNat = 383 := by
    rw [terrainWidth_eq]
    rfl
  unfold Terrain
  rw [hw]
  have h0 : 0 ≤ (terrain0.set 0 ((rnd 0 : Int) % MAX_HEIGHT)).getD 0 0 ∧
      (terrain0.set 0 ((rnd 0 : Int) % MAX_HEIGHT)).getD 0 0 < MAX_HEIGHT := by
    rw [getD_set_self _ _ _ (by omega)]
    unfold MAX_HEIGHT
    exact ⟨Int.emod_nonneg _ (by norm_num), Int.emod_lt_of_pos _ (by norm_num)⟩
  exact (terrainLoop_inv rnd _ 383 (by rw [List.length_set, hl]; omega) h0).1 i (by omega)

/-- Over a terrain with heights in `[0, MAX_HEIGHT)`, `ApplyGravity` leaves a
tank of height 30 that is on the screen on the screen. -/
theorem ApplyGravity_y (t : Tank) (terrain : List Int)
    (hT : ∀ i : Nat, (i : Int) < TERRAIN_WIDTH →
      0 ≤ terrain.getD i 0 ∧ terrain.getD i 0 < MAX_HEIGHT)
    (hh : t.height = 30)
    (hy : 0 ≤ t.position.y + (t.verticalVelocity + t.gravity) ∧
      t.position.y + (t.verticalVelocity + t.gravity) ≤ 1200) :
    0 ≤ (t.ApplyGravity terrain).position.y ∧ (t.ApplyGravity terrain).position.y ≤ 1200 := by
  unfold Tank.ApplyGravity
  dsimp only
  split_ifs with h1 h2
  · have hi : ((truncToInt (t.position.x / (TERRAIN_SEGMENT_WIDTH : ℚ))).toNat : Int) <
        TERRAIN_WIDTH := by
      rw [Int.toNat_of_nonneg h1.1]
      exact h1.2
    obtain ⟨a, b⟩ := hT _ hi
    show (0 : ℚ) ≤ ((SCREEN_HEIGHT - terrain.getD _ 0 - t.height : Int) : ℚ) ∧
      ((SCREEN_HEIGHT - terrain.getD _ 0 - t.height : Int) : ℚ) ≤ 1200
    rw [hh]
    unfold SCREEN_HEIGHT
    unfold MAX_HEIGHT at b
    constructor
    · have : (0 : Int) ≤ 1200 - terrain.getD
          (truncToInt (t.position.x / (TERRAIN_SEGMENT_WIDTH : ℚ))).toNat 0 - 30 := by omega
      exact_mod_cast this
    · have : 1200 - terrain.getD
          (truncToInt (t.position.x / (TERRAIN_SEGMENT_WIDTH : ℚ))).toNat 0 - 30 ≤
          (1200 : Int) := by omega
      exact_mod_cast this
  · exact hy
  · exact hy

/-- A frame that starts on the menu leaves the terrain alone. -/
theorem frame_menu_terrain (ops : FloatOps) (g : Game) (inp : Input)
    (h : g.currentState = GameState.MAIN_MENU) : (Game.frame ops g inp).terrain = g.terrain := by
  have hD : ∀ m : Game, (Game.Draw m inp).terrain = m.terrain := by
    intro m
    unfold Game.Draw
    split
    · dsimp only
      split_ifs <;> rfl
    · rfl
  unfold Game.frame
  rw [hD]
  unfold Game.Update
  rw [h]
  dsimp only
  split_ifs <;> rfl

theorem init_terrain (rnd : Nat → Nat) (terrain0 : List Int) (velocity0 : Vector2) :
    (Game.init rnd terrain0 velocity0).terrain = Terrain rnd terrain0 := by
  simp only [Game.init]

/-- The tank that fires the first shot of `selfHitTrace` is on the screen. -/
theorem selfHitTrace_zero_y :
    0 ≤ (movedTank exampleOps (selfHitTrace 0) (selfHitInput (selfHitTrace 0))).position.y ∧
    (movedTank exampleOps (selfHitTrace 0) (selfHitInput (selfHitTrace 0))).position.y ≤
      1200 := by
  have hm : movedTank exampleOps (selfHitTrace 0) (selfHitInput (selfHitTrace 0)) =
      ((selfHitTrace 0).player1.ApplyGravity (selfHitTrace 0).terrain).HandleInput exampleOps
        (selfHitTrace 0).terrain false false := by
    unfold movedTank
    rw [if_pos selfHitTrace_zero.2.2.1]
    rfl
  have h1 : (selfHitTrace 0).terrain =
      (Game.init (fun _ => 7) (List.replicate 384 0) ⟨0, 0⟩).terrain :=
    frame_menu_terrain exampleOps _ pressEnter rfl
  have hl : (List.replicate 384 (0 : Int)).length = 384 := List.length_replicate _ _
  have hh : (selfHitTrace 0).player1.height = 30 := selfHitTrace_zero.2.2.2.2.2.2.2.2.1
  have hy : (selfHitTrace 0).player1.position.y +
      ((selfHitTrace 0).player1.verticalVelocity + (selfHitTrace 0).player1.gravity) =
      800 + (0 + 3 / 10) := rfl
  rw [hm, (HandleInput_fields exampleOps _ _ _ _).2.1, h1, init_terrain]
  apply ApplyGravity_y
  · intro i hi
    exact Terrain_range _ _ hl i hi
  · exact hh
  · rw [hy]
    norm_num

/-- Witness for C16: the first shot of `selfHitTrace`, fired by player 1 at the
point 3 right of and 4 below its own position: displacement (0.654, 1.172).
The boxes overlap, with exact and with rounded sums, player 1 ends the frame
at health 80 and the shot has resolved. -/
theorem C16_self_hit_on_firing_witness :
    CheckCollisionRecs
      (shotFired exampleOps (selfHitTrace 0) (selfHitInput (selfHitTrace 0))).integrate.rect
      (movedTank exampleOps (selfHitTrace 0) (selfHitInput (selfHitTrace 0))).rect = true ∧
    CheckCollisionRecs
      (shotFired exampleOps (selfHitTrace 0) (selfHitInput (selfHitTrace 0))).integrateF32.rect
      (movedTank exampleOps (selfHitTrace 0) (selfHitInput (selfHitTrace 0))).rect = true ∧
    (Game.Update exampleOps (selfHitTrace 0) (selfHitInput (selfHitTrace 0))).player1.health =
      80 ∧
    (Game.Update exampleOps (selfHitTrace 0)
      (selfHitInput (selfHitTrace 0))).currentProjectile.isActive = false ∧
    (Game.Update exampleOps (selfHitTrace 0)
      (selfHitInput (selfHitTrace 0))).projectileActive = false :=
  have h := C16_self_hit_on_firing exampleOps (selfHitTrace 0) (selfHitInput (selfHitTrace 0))
    (selfHitTrace_reachable 0) selfHitTrace_zero.1 selfHitTrace_zero.2.1 rfl
    (selfHitInput_off (selfHitTrace 0))
    (by rw [(selfHit_velocity (selfHitTrace 0)).1]; norm_num)
    (by rw [(selfHit_velocity (selfHitTrace 0)).1, (selfHit_velocity (selfHitTrace 0)).2]
        norm_num)
  ⟨h.2.1, h.2.2.1 selfHitTrace_zero_y,
    by rw [h.2.2.2.1 rfl, selfHitTrace_zero.2.2.2.1]; norm_num,
    h.2.2.2.2.2.1, h.2.2.2.2.2.2⟩

end Tanky
